import Mathlib

/-!
sfu-pull: signalling handler, federation connector and registry reconciliation

A shallow embedding of

* `src/pkg/cache/redis.go`                       (package `cacheredis`)
* `src/cmd/signal/json-rpc/server/server.go`     (package `server`, `JSONSignal.Handle`)
* `src/cmd/signal/json-rpc/server/pull.go`       (package `server`, relay connection)
* `src/pkg/pull/pull.go`                         (package `pull`, candidate callback)
* `src/pkg/schedule/schedule.go`                 (package `schedulecheck`)

Conventions of the embedding.

* Go pointers that may be nil are `Option`; dereferencing `none` sets the
  `panicked` flag of the result and stops the function there.
* The two package-level variables `Conn` and `PullPeers` (and `AddrConn`) are
  the fields of `World`, passed in and returned explicitly.
* Every call that leaves the function (media engine, signalling connection,
  websocket, logger, goroutine start) is appended to a list of `Event`s in
  program order.  What such a call returns is read from `Env`.
* `go f(args)` is the event `go_f args`; `f` itself is embedded as its own
  function, to be run on the recorded arguments.
* An unrecovered panic in any goroutine ends the whole process.  When
  `Handle` starts a goroutine that dereferences a nil connection as soon as
  it runs, the result carries `fatal := true`: the events recorded after that
  `go` statement are the calls `Handle` makes if it is still running, and none
  of them is guaranteed to happen.
* `fmt.Println` debugging output is not recorded.
-/

set_option autoImplicit false

namespace SfuPull

/-- Go `error` values, represented by their text. -/
abbrev Error := String

/-! ## Types of the external packages -/

namespace webrtc

/-- The `webrtc.SessionDescription` of pion: an SDP blob with its kind
(the `SDPType`, by the name it has on the wire; the zero value is `""`). -/
structure SessionDescription where
  Kind : String
  SDP : String
deriving DecidableEq, Repr

/-- The `webrtc.ICECandidateInit` of pion. -/
structure ICECandidateInit where
  Candidate : String
  SDPMid : Option String
  SDPMLineIndex : Option Nat
  UsernameFragment : Option String
deriving DecidableEq, Repr

end webrtc

namespace sfu

/-- The `sfu.JoinConfig` of the media engine. -/
structure JoinConfig where
  NoPublish : Bool
  NoSubscribe : Bool
  NoAutoSubscribe : Bool
deriving DecidableEq, Repr

/-- A `*sfu.PeerLocal`: the identity of one media-engine peer. -/
structure PeerLocal where
  id : Nat
deriving DecidableEq, Repr

/-- The session provider handed to `sfu.NewPeer` (third result of `CheckSession`). -/
structure Provider where
  id : Nat
deriving DecidableEq, Repr

/-- A `sfu.Session` as seen through `ID()`; `RemoveAllPeer()` is an event on it. -/
structure Session where
  ID : String
deriving DecidableEq, Repr

end sfu

namespace jsonrpc2

/-- The `jsonrpc2.ID` correlation id. -/
structure ID where
  Num : Nat
  Str : String
  IsString : Bool
deriving DecidableEq, Repr

end jsonrpc2

/-- A `*websocket.Conn`: the identity of one websocket. -/
structure WsConn where
  id : Nat
deriving DecidableEq, Repr

/-! ## Protocol messages (`server.go` lines 15-32, `pull.go` lines 38-50) -/

namespace server

/-- Join message sent when initializing a peer connection. -/
structure Join where
  SID : String
  UID : String
  Offer : webrtc.SessionDescription
  Config : sfu.JoinConfig
deriving DecidableEq, Repr

/-- Negotiation message sent when renegotiating the peer connection. -/
structure Negotiation where
  Desc : webrtc.SessionDescription
deriving DecidableEq, Repr

/-- Trickle message; `Target` is a Go `int`. -/
structure Trickle where
  Target : Int
  Candidate : webrtc.ICECandidateInit
deriving DecidableEq, Repr

/-- The zero `webrtc.SessionDescription`. -/
def zeroDesc : webrtc.SessionDescription := { Kind := "", SDP := "" }

/-- The zero `sfu.JoinConfig`, also the literal written in `createPeer` and `sendOfferJoin`. -/
def zeroConfig : sfu.JoinConfig :=
  { NoPublish := false, NoSubscribe := false, NoAutoSubscribe := false }

/-- The zero `webrtc.ICECandidateInit`. -/
def zeroCandidate : webrtc.ICECandidateInit :=
  { Candidate := "", SDPMid := none, SDPMLineIndex := none, UsernameFragment := none }

/-- The zero `Join` (what `var join Join` holds before `json.Unmarshal`). -/
def zeroJoin : Join := { SID := "", UID := "", Offer := zeroDesc, Config := zeroConfig }

/-- The zero `Negotiation`. -/
def zeroNegotiation : Negotiation := { Desc := zeroDesc }

/-- The zero `Trickle`. -/
def zeroTrickle : Trickle := { Target := 0, Candidate := zeroCandidate }

/-- A `json.RawMessage`, seen through the three `json.Unmarshal` calls the
program applies to it: for each target type, the value left in the target
and the error returned (`none` is Go's nil error).  A target may be partly
filled when the error is not nil, as with `encoding/json`. -/
structure RawMessage where
  asJoin : Join × Option Error
  asNegotiation : Negotiation × Option Error
  asTrickle : Trickle × Option Error
deriving DecidableEq, Repr

/-- Whether the kind of a description is one of the four `SDPType` values
pion can write and read back.  Any other kind (the zero value among them) is
written as `"unknown"`, which `SDPType.UnmarshalJSON` refuses with the error
`unknown`. -/
def knownKind (d : webrtc.SessionDescription) : Bool :=
  d.Kind = "offer" || d.Kind = "pranswer" || d.Kind = "answer" || d.Kind = "rollback"

/-- The bytes `json.Marshal(&Join{..})` produces.  With an offer of a known
kind they decode back to the join; otherwise decoding stops at the `type` of
the offer with the error `unknown`, after `sid` and `uid` have been stored.
Decoded as another message type no field matches and the target stays zero. -/
def marshalJoin (j : Join) : RawMessage :=
  { asJoin :=
      if knownKind j.Offer then (j, none)
      else ({ SID := j.SID, UID := j.UID, Offer := zeroDesc, Config := zeroConfig },
            some "unknown")
    asNegotiation := (zeroNegotiation, none)
    asTrickle := (zeroTrickle, none) }

/-- The bytes `json.Marshal(&Negotiation{..})` produces.  With a description
of a known kind they decode back to the negotiation; otherwise decoding stops
at the `type` of the description with the error `unknown` and the target
stays zero. -/
def marshalNegotiation (n : Negotiation) : RawMessage :=
  { asJoin := (zeroJoin, none)
    asNegotiation :=
      if knownKind n.Desc then (n, none) else (zeroNegotiation, some "unknown")
    asTrickle := (zeroTrickle, none) }

/-- The bytes `json.Marshal(&Trickle{..})` produces. -/
def marshalTrickle (t : Trickle) : RawMessage :=
  { asJoin := (zeroJoin, none), asNegotiation := (zeroNegotiation, none), asTrickle := (t, none) }

end server

namespace jsonrpc2

/-- The `jsonrpc2.Request`: it has no session id field. -/
structure Request where
  Method : String
  Params : Option server.RawMessage
  ID : ID
  Notif : Bool
deriving DecidableEq, Repr

end jsonrpc2

namespace server

/-- The `Request` of `pull.go` (lines 38-43): a request with the session id `Sid`. -/
structure Request where
  Method : String
  Params : Option RawMessage
  ID : jsonrpc2.ID
  Sid : String
deriving DecidableEq, Repr

/-- The `Connect` of `pull.go` (lines 47-50); the mutex carries no data. -/
structure Connect where
  Conn : WsConn
deriving DecidableEq, Repr

/-- What is handed to `json.NewEncoder(..).Encode` before a websocket write:
either a `*jsonrpc2.Request` or a `*Request`. -/
inductive WireMessage where
  | jsonrpc (m : jsonrpc2.Request)
  | request (m : Request)
deriving DecidableEq, Repr

/-- The closures assigned to `OnOffer`. -/
inductive OfferCallback where
  /-- `server.go` lines 75-80: `conn.Notify(ctx, "offer", offer)`. -/
  | notifyOffer
deriving DecidableEq, Repr

/-- The closures assigned to `OnIceCandidate`, with what they capture. -/
inductive IceCallback where
  /-- `server.go` lines 81-88: `conn.Notify(ctx, "trickle", Trickle{..})`. -/
  | notifyTrickle
  /-- `server/pull.go` lines 168-201, capturing the `*Connect` argument `c`. -/
  | relayTrickle (c : Option Connect)
  /-- `pkg/pull/pull.go` lines 142-172, capturing the `*websocket.Conn` argument `c`. -/
  | wsTrickle (c : Option WsConn)
deriving DecidableEq, Repr

/-- The `JSONSignal` of `server.go` (lines 34-37): a peer and its callbacks
(the callbacks are fields of the embedded `*sfu.PeerLocal`); the logger carries no data. -/
structure JSONSignal where
  PeerLocal : sfu.PeerLocal
  OnOffer : Option OfferCallback
  OnIceCandidate : Option IceCallback
deriving DecidableEq, Repr

/-- `NewJSONSignal` (`server.go` lines 42-44). -/
def NewJSONSignal (p : sfu.PeerLocal) : JSONSignal :=
  { PeerLocal := p, OnOffer := none, OnIceCandidate := none }

end server

open server

/-! ## Shared state, environment and events -/

/-- The package-level variables of `server`: `Conn` (`server.go` line 39),
`PullPeers` (line 40, a Go map: keys in a list, see `mapGet`) and `AddrConn`
(`pull.go` line 45); `nextPeer` numbers the peers `sfu.NewPeer` allocates. -/
structure World where
  Conn : Option Connect
  PullPeers : List (String × JSONSignal)
  AddrConn : String
  nextPeer : Nat
deriving DecidableEq, Repr

/-- What `CheckSession` returns: `accept, newConn, s`. -/
structure CheckResult where
  accept : Bool
  newConn : Bool
  s : sfu.Provider
deriving DecidableEq, Repr

/-- What the collaborators outside the embedded files return. -/
structure Env where
  /-- `redisClient.Get(ctx, key).Result()`. -/
  redisGet : String → String × Option Error
  /-- `json.Unmarshal([]byte(s), &result)` on a `[]string` target. -/
  unmarshalStrings : String → List String × Option Error
  /-- `p.GetProvider().CheckSession(sid)` of the media engine. -/
  CheckSession : String → CheckResult
  /-- `websocket.DefaultDialer.Dial(url, nil)`. -/
  Dial : String → Except Error WsConn
  /-- `PeerLocal.Join(sid, uid, config)`. -/
  Join : sfu.PeerLocal → String → String → sfu.JoinConfig → Option Error
  /-- `PeerLocal.Answer(offer)`. -/
  Answer : sfu.PeerLocal → webrtc.SessionDescription → Except Error webrtc.SessionDescription
  /-- `PeerLocal.SetRemoteDescription(desc)`. -/
  SetRemoteDescription : sfu.PeerLocal → webrtc.SessionDescription → Option Error
  /-- `PeerLocal.Trickle(candidate, target)`. -/
  Trickle : sfu.PeerLocal → webrtc.ICECandidateInit → Int → Option Error
  /-- `pc.CreateOffer(nil)` on the subscriber transport of a peer. -/
  CreateOffer : sfu.PeerLocal → webrtc.SessionDescription × Option Error
  /-- `pc.SetLocalDescription(offer)`. -/
  SetLocalDescription : sfu.PeerLocal → webrtc.SessionDescription → Option Error
  /-- `websocket.Conn.WriteMessage(messType, bytes)`. -/
  WriteMessage : WsConn → WireMessage → Option Error
  /-- `conn.Notify(ctx, method, params)` on the signalling connection. -/
  Notify : String → Option Error
  /-- `uuid.New().ID()`, a `uint32`. -/
  uuid : Nat

/-- One call that leaves the embedded code. -/
inductive Event where
  | log (msg : String)
  | Reply (id : jsonrpc2.ID) (result : webrtc.SessionDescription)
  | ReplyWithError (id : jsonrpc2.ID) (code : Nat) (message : String)
  | NotifyOffer (offer : webrtc.SessionDescription)
  | NotifyTrickle (t : Trickle)
  | Close (p : sfu.PeerLocal)
  | Join (p : sfu.PeerLocal) (sid uid : String) (config : sfu.JoinConfig)
  | Answer (p : sfu.PeerLocal) (offer : webrtc.SessionDescription)
  | SetRemoteDescription (p : sfu.PeerLocal) (desc : webrtc.SessionDescription)
  | Trickle (p : sfu.PeerLocal) (candidate : webrtc.ICECandidateInit) (target : Int)
  | CheckSession (sid : String)
  | Dial (url : String)
  | SetCloseHandler (c : WsConn)
  | NewPeer (s : sfu.Provider) (p : sfu.PeerLocal)
  | go_readMessage (c : Option Connect)
  | go_sendOfferJoin (pc : sfu.PeerLocal) (ssid : String) (c : Option Connect)
  | CreateOffer (pc : sfu.PeerLocal)
  | SetLocalDescription (pc : sfu.PeerLocal) (offer : webrtc.SessionDescription)
  | WriteMessage (c : WsConn) (m : WireMessage)
  | RemoveAllPeer (ss : sfu.Session)
deriving DecidableEq, Repr

/-- Go map read `m[k]`: `none` is the nil a missing key gives. -/
def mapGet {α : Type} (k : String) : List (String × α) → Option α
  | [] => none
  | (k1, v) :: rest => if k1 = k then some v else mapGet k rest

/-- Go `delete(m, k)`. -/
def mapDelete {α : Type} (k : String) (m : List (String × α)) : List (String × α) :=
  m.filter (fun e => decide (e.1 ≠ k))

/-- Go map write `m[k] = v`: the old entry, if any, is replaced. -/
def mapSet {α : Type} (k : String) (v : α) (m : List (String × α)) : List (String × α) :=
  (k, v) :: mapDelete k m

/-- What a function of the program leaves behind: the package-level
variables, the calls it made, and whether it stopped in a nil dereference. -/
structure Outcome where
  world : World
  events : List Event
  panicked : Bool
deriving DecidableEq, Repr

/-! ## `src/pkg/cache/redis.go` -/

namespace cacheredis

/-- `GetCacheRedis` (lines 19-29). -/
def GetCacheRedis (env : Env) (key : String) : List String × Option Error :=
  let ssiCache := (env.redisGet key).1
  let errGet := (env.redisGet key).2
  if ssiCache ≠ "" then
    (env.unmarshalStrings ssiCache)
  else
    ([], errGet)

end cacheredis

/-! ## `src/cmd/signal/json-rpc/server/pull.go` -/

namespace server

/-- The result of `Connect.sendMess`. -/
structure Sent where
  events : List Event
  err : Option Error
  panicked : Bool
deriving DecidableEq, Repr

/-- `Connect.sendMess` (lines 52-60): `c.mu.Lock()` on a nil `c` is a nil
dereference; otherwise the encoded message is written to `c.Conn`. -/
def sendMess (env : Env) (c : Option Connect) (data : WireMessage) : Sent :=
  match c with
  | none => { events := [], err := none, panicked := true }
  | some conn =>
    { events := [.WriteMessage conn.Conn data]
      err := env.WriteMessage conn.Conn data
      panicked := false }

/-- The target switch at the head of the candidate callbacks
(`server/pull.go` lines 169-173, `pkg/pull/pull.go` lines 143-147). -/
def flipTarget (i : Int) : Int :=
  if i = 0 then 1 else 0

/-- The zero `jsonrpc2.ID` (the callbacks leave `ID` unset). -/
def zeroID : jsonrpc2.ID := { Num := 0, Str := "", IsString := false }

/-- The closure assigned to `p.OnIceCandidate` in `createPeer` (lines
168-201), run on `candidate` and `i`; `c` is the captured connection. -/
def relayTrickle (env : Env) (c : Option Connect)
    (candidate : Option webrtc.ICECandidateInit) (i : Int) : List Event × Bool :=
  let i := flipTarget i
  match candidate with
  | none => ([], false)
  | some cand =>
    let params := marshalTrickle { Candidate := cand, Target := i }
    let message : jsonrpc2.Request :=
      { Method := "trickle", Params := some params, ID := zeroID, Notif := false }
    let sent := sendMess env c (.jsonrpc message)
    if sent.panicked then (sent.events, true)
    else
      match sent.err with
      | some _ => (sent.events ++ [.log "Err send mess"], false)
      | none => (sent.events, false)

/-- `createPeer` (lines 165-208): the new signal with its candidate callback,
and the `Join` of the pull peer (its error is not looked at). -/
def createPeer (peerLocal : sfu.PeerLocal) (c : Option Connect) (id : String) :
    JSONSignal × List Event :=
  let p := NewJSONSignal peerLocal
  let p := { p with OnIceCandidate := some (.relayTrickle c) }
  (p, [.Join peerLocal id "pull" zeroConfig])

/-- `createConnWs` (lines 143-163): the host dialled is `AddrConn`, not `address`. -/
def createConnWs (env : Env) (w : World) (_address : String) : Option Connect × List Event :=
  let u := "ws://" ++ w.AddrConn ++ "/pull"
  match env.Dial u with
  | .error _ => (none, [.log "connecting to", .Dial u, .log "Err create conn ws"])
  | .ok c => (some { Conn := c }, [.log "connecting to", .Dial u, .SetCloseHandler c])

/-- The close handler installed by `createConnWs` (lines 151-156). -/
def closeHandler (env : Env) (w : World) (address : String) : Outcome :=
  let r := createConnWs env w address
  { world := { w with Conn := r.1 }
    events := .log "Create new connect ws..." :: r.2
    panicked := false }

/-- `sendOfferJoin` (lines 210-257); `pc` is the subscriber transport of the
peer given.  The second component is the error returned. -/
def sendOfferJoin (env : Env) (pc : sfu.PeerLocal) (ssid : String) (c : Option Connect) :
    (List Event × Bool) × Option Error :=
  let offer := (env.CreateOffer pc).1
  match env.SetLocalDescription pc offer with
  | some errSetDps =>
    (([.CreateOffer pc, .SetLocalDescription pc offer, .log "Err set dps"], false), some errSetDps)
  | none =>
    let offerJSON := marshalJoin { Offer := offer, SID := ssid, UID := "", Config := zeroConfig }
    let connectionID := env.uuid % 2 ^ 32
    let offerMessage : Request :=
      { Method := "join", Params := some offerJSON, Sid := ssid
        ID := { IsString := false, Str := "", Num := connectionID } }
    let sent := sendMess env c (.request offerMessage)
    let before : List Event := [.CreateOffer pc, .SetLocalDescription pc offer]
    if sent.panicked then ((before ++ sent.events, true), none)
    else
      match sent.err with
      | some _ => ((before ++ sent.events ++ [.log "Err send mess"], false), none)
      | none => ((before ++ sent.events, false), none)

/-- One turn of the loop of `readMessage` (lines 69-139) on the message
`response` that `json.Unmarshal(mess, &response)` left; `peers` is the map
`PullPeers` of `w`, the argument the only caller passes. -/
def readMessageStep (env : Env) (c : Connect) (w : World) (response : Request) : Outcome :=
  if response.Method = "answer" then
    match mapGet response.Sid w.PullPeers with
    | none => { world := w, events := [], panicked := false }
    | some peer =>
      match response.Params with
      | none => { world := w, events := [], panicked := true }
      | some raw =>
        let negotiation := raw.asNegotiation.1
        let e1 : List Event :=
          match raw.asNegotiation.2 with
          | some _ => [.log "Err unmarshal"]
          | none => []
        let e2 : List Event :=
          match env.SetRemoteDescription peer.PeerLocal negotiation.Desc with
          | some _ => [.log "Err set remote answer"]
          | none => []
        { world := w
          events := e1 ++ [.SetRemoteDescription peer.PeerLocal negotiation.Desc] ++ e2
          panicked := false }
  else if response.Method = "offer" then
    match mapGet response.Sid w.PullPeers with
    | none => { world := w, events := [], panicked := false }
    | some peer =>
      match response.Params with
      | none => { world := w, events := [], panicked := true }
      | some raw =>
        let negotiation := raw.asNegotiation.1
        match env.Answer peer.PeerLocal negotiation.Desc with
        | .error _ =>
          -- the error is logged, then `*answer` dereferences the nil answer
          { world := w
            events := [.Answer peer.PeerLocal negotiation.Desc, .log "Err create ans"]
            panicked := true }
        | .ok answer =>
          let connectionID := env.uuid % 2 ^ 32
          let offerJSON := marshalNegotiation { Desc := answer }
          let answerMessage : Request :=
            { Method := "answer", Params := some offerJSON, Sid := response.Sid
              ID := { IsString := false, Str := "", Num := connectionID } }
          let sent := sendMess env (some c) (.request answerMessage)
          let e2 : List Event :=
            match sent.err with
            | some _ => [.log "Err send mess"]
            | none => []
          { world := w
            events := [.Answer peer.PeerLocal negotiation.Desc] ++ sent.events ++ e2
            panicked := sent.panicked }
  else if response.Method = "trickle" then
    match mapGet response.Sid w.PullPeers with
    | none => { world := w, events := [], panicked := false }
    | some peer =>
      match response.Params with
      | none => { world := w, events := [], panicked := true }
      | some raw =>
        let trickle := raw.asTrickle.1
        let e1 : List Event :=
          match raw.asTrickle.2 with
          | some _ => [.log "Err read trickle"]
          | none => []
        let e2 : List Event :=
          match env.Trickle peer.PeerLocal trickle.Candidate trickle.Target with
          | some _ => [.log "Err add candidate"]
          | none => []
        { world := w
          events := e1 ++ [.Trickle peer.PeerLocal trickle.Candidate trickle.Target] ++ e2
          panicked := false }
  else
    { world := w, events := [], panicked := false }

/-- The loop of `readMessage` over the messages read before `ReadMessage`
fails, once `c` is known not to be nil. -/
def readLoop (env : Env) (c : Connect) (w : World) : List Request → Outcome
  | [] => { world := w, events := [], panicked := false }
  | response :: rest =>
    let r := readMessageStep env c w response
    if r.panicked then r
    else
      let r2 := readLoop env c r.world rest
      { world := r2.world, events := r.events ++ r2.events, panicked := r2.panicked }

/-- `readMessage` (lines 62-141): `c.Conn.ReadMessage()` on a nil `c` is a
nil dereference; `inbox` holds the messages read until the read error that
ends the loop. -/
def readMessage (env : Env) (c : Option Connect) (w : World) (inbox : List Request) : Outcome :=
  match c with
  | none => { world := w, events := [], panicked := true }
  | some conn => readLoop env conn w inbox

end server

/-! ## `src/pkg/pull/pull.go` -/

namespace pull

/-- The closure assigned to `p.OnIceCandidate` in `createPeer` of package
`pull` (lines 142-172); `c` is the captured websocket, written to directly. -/
def wsTrickle (_env : Env) (c : Option WsConn)
    (candidate : Option webrtc.ICECandidateInit) (i : Int) : List Event × Bool :=
  let i := flipTarget i
  match candidate with
  | none => ([], false)
  | some cand =>
    let params := marshalTrickle { Candidate := cand, Target := i }
    let message : jsonrpc2.Request :=
      { Method := "trickle", Params := some params, ID := zeroID, Notif := false }
    match c with
    | none => ([], true)
    | some ws => ([.WriteMessage ws (.jsonrpc message)], false)

/-- `createPeer` of package `pull` (lines 112-174). -/
def createPeer (peerLocal : sfu.PeerLocal) (c : Option WsConn) : JSONSignal :=
  let p := NewJSONSignal peerLocal
  { p with OnIceCandidate := some (.wsTrickle c) }

end pull

/-- Runs the closure stored in `OnIceCandidate` of `p` on a candidate
and a target, as the media engine does; the handler closure of `server.go`
(lines 81-88) dereferences the candidate. -/
def runOnIceCandidate (env : Env) (p : JSONSignal)
    (candidate : Option webrtc.ICECandidateInit) (target : Int) : List Event × Bool :=
  match p.OnIceCandidate with
  | none => ([], false)
  | some .notifyTrickle =>
    match candidate with
    | none => ([], true)
    | some cand =>
      let t : Trickle := { Candidate := cand, Target := target }
      match env.Notify "trickle" with
      | some _ => ([.NotifyTrickle t, .log "error sending ice candidate"], false)
      | none => ([.NotifyTrickle t], false)
  | some (.relayTrickle c) => server.relayTrickle env c candidate target
  | some (.wsTrickle c) => pull.wsTrickle env c candidate target

/-! ## `src/cmd/signal/json-rpc/server/server.go` -/

namespace server

/-- What `JSONSignal.Handle` leaves behind: the package-level variables, the
receiver `p` (its callbacks may have been assigned), the calls made in
program order, whether `Handle` itself stopped in a nil dereference
(`panicked`), and whether a goroutine it started is bound to stop in one
(`fatal`).  Either ends the process; with `fatal` the events recorded after
the `go` statement race with the end of the process and are not guaranteed. -/
structure Handled where
  world : World
  self : JSONSignal
  events : List Event
  panicked : Bool
  fatal : Bool := false
deriving DecidableEq, Repr

/-- Whether the goroutine started by a `go` event stops in a nil
dereference by its own run, whatever it is sent: `readMessage` on a nil `c`
does at its first `c.Conn.ReadMessage()` (`pull.go` line 65), `sendOfferJoin`
does when it reaches `c.sendMess` on a nil `c` (`pull.go` lines 246, 53). -/
def goroutineDies (env : Env) : Event → Bool
  | .go_readMessage c => c.isNone
  | .go_sendOfferJoin pc ssid c => (sendOfferJoin env pc ssid c).1.2
  | _ => false

/-- The closure `replyError` of `Handle` (lines 48-53). -/
def replyError (req : jsonrpc2.Request) (err : Error) : Event :=
  .ReplyWithError req.ID 500 err

/-- Lines 92-98 of `Handle`, the body of `if Conn == nil`: the dialled
connection (nil when the dial failed) is stored in `Conn` and the reader is started on it. -/
def ensureConn (env : Env) (w : World) : World × List Event :=
  match w.Conn with
  | none =>
    let dialled := createConnWs env w "localhost:7070"
    ({ w with Conn := dialled.1 }, dialled.2 ++ [.go_readMessage dialled.1])
  | some _ => (w, [])

/-- Lines 91-107 of `Handle`, the body of `if newConn == true`: the shared
connection is created when there is none, a pull peer is created on the
provider `s` and stored under the session id, and the join handshake is
started on the subscriber transport of that peer. -/
def federate (env : Env) (w : World) (s : sfu.Provider) (sid : String) : World × List Event :=
  let w1 := (ensureConn env w).1
  let peerLocal : sfu.PeerLocal := { id := w1.nextPeer }
  let created := createPeer peerLocal w1.Conn sid
  let peerPull := created.1
  let w2 : World :=
    { w1 with PullPeers := mapSet sid peerPull w1.PullPeers, nextPeer := w1.nextPeer + 1 }
  (w2, (ensureConn env w).2 ++ [.NewPeer s peerLocal] ++ created.2
        ++ [.go_sendOfferJoin peerPull.PeerLocal sid w2.Conn])

/-- Lines 108-124 of `Handle`: the branch on `accept`. -/
def acceptJoin (env : Env) (p : JSONSignal) (req : jsonrpc2.Request) (join : Join)
    (accept : Bool) : List Event :=
  if accept = true then
    match env.Join p.PeerLocal join.SID join.UID join.Config with
    | some err => [.Join p.PeerLocal join.SID join.UID join.Config, replyError req err]
    | none =>
      match env.Answer p.PeerLocal join.Offer with
      | .error err =>
        [.Join p.PeerLocal join.SID join.UID join.Config, .Answer p.PeerLocal join.Offer,
          replyError req err]
      | .ok answer =>
        [.Join p.PeerLocal join.SID join.UID join.Config, .Answer p.PeerLocal join.Offer,
          .Reply req.ID answer]
  else
    [.Close p.PeerLocal]

/-- Lines 75-125 of `Handle`: the body run for the first registry id equal
to `join.SID`.  The goroutines of lines 97 and 105 run beside it; when one of
them is started on a nil `Conn` (the dial of line 93 failed) the process ends
in its nil dereference, which `fatal` records. -/
def joinMatched (env : Env) (w : World) (p : JSONSignal) (req : jsonrpc2.Request)
    (join : Join) : Handled :=
  let p1 : JSONSignal :=
    { p with OnOffer := some .notifyOffer, OnIceCandidate := some .notifyTrickle }
  let checked := env.CheckSession join.SID
  let fed : World × List Event :=
    if checked.newConn = true then federate env w checked.s join.SID else (w, [])
  { world := fed.1
    self := p1
    events := [.CheckSession join.SID] ++ fed.2 ++ acceptJoin env p1 req join checked.accept
    panicked := false
    fatal := fed.2.any (goroutineDies env) }

/-- Lines 73-127 of `Handle`: the scan `for _, id := range ssids`, left by
`break` after the body has run for the first id equal to `join.SID`. -/
def joinLoop (env : Env) (w : World) (p : JSONSignal) (req : jsonrpc2.Request)
    (join : Join) : List String → Handled
  | [] => { world := w, self := p, events := [], panicked := false }
  | id :: rest =>
    if id = join.SID then joinMatched env w p req join
    else joinLoop env w p req join rest

/-- `JSONSignal.Handle` (lines 47-179). -/
def Handle (env : Env) (w : World) (p : JSONSignal) (req : jsonrpc2.Request) : Handled :=
  if req.Method = "join" then
    match req.Params with
    | none => { world := w, self := p, events := [], panicked := true }
    | some raw =>
      let join := raw.asJoin.1
      match raw.asJoin.2 with
      | some err =>
        { world := w, self := p
          events := [.log "connect: error parsing offer", replyError req err]
          panicked := false }
      | none =>
        let ssids := (cacheredis.GetCacheRedis env "sessionid").1
        match (cacheredis.GetCacheRedis env "sessionid").2 with
        | some _ =>
          { world := w, self := p, events := [.log "Err get cache ssid"], panicked := false }
        | none =>
          if join.SID ≠ "" then
            joinLoop env w p req join ssids
          else
            { world := w, self := p, events := [.Close p.PeerLocal], panicked := false }
  else if req.Method = "offer" then
    match req.Params with
    | none => { world := w, self := p, events := [], panicked := true }
    | some raw =>
      let negotiation := raw.asNegotiation.1
      match raw.asNegotiation.2 with
      | some err =>
        { world := w, self := p
          events := [.log "connect: error parsing offer", replyError req err]
          panicked := false }
      | none =>
        match env.Answer p.PeerLocal negotiation.Desc with
        | .error err =>
          { world := w, self := p
            events := [.Answer p.PeerLocal negotiation.Desc, replyError req err]
            panicked := false }
        | .ok answer =>
          { world := w, self := p
            events := [.Answer p.PeerLocal negotiation.Desc, .Reply req.ID answer]
            panicked := false }
  else if req.Method = "answer" then
    match req.Params with
    | none => { world := w, self := p, events := [], panicked := true }
    | some raw =>
      let negotiation := raw.asNegotiation.1
      match raw.asNegotiation.2 with
      | some err =>
        { world := w, self := p
          events := [.log "connect: error parsing answer", replyError req err]
          panicked := false }
      | none =>
        match env.SetRemoteDescription p.PeerLocal negotiation.Desc with
        | some err =>
          { world := w, self := p
            events := [.SetRemoteDescription p.PeerLocal negotiation.Desc, replyError req err]
            panicked := false }
        | none =>
          { world := w, self := p
            events := [.SetRemoteDescription p.PeerLocal negotiation.Desc]
            panicked := false }
  else if req.Method = "trickle" then
    match req.Params with
    | none => { world := w, self := p, events := [], panicked := true }
    | some raw =>
      let trickle := raw.asTrickle.1
      match raw.asTrickle.2 with
      | some err =>
        { world := w, self := p
          events := [.log "connect: error parsing candidate", replyError req err]
          panicked := false }
      | none =>
        match env.Trickle p.PeerLocal trickle.Candidate trickle.Target with
        | some err =>
          { world := w, self := p
            events := [.Trickle p.PeerLocal trickle.Candidate trickle.Target, replyError req err]
            panicked := false }
        | none =>
          { world := w, self := p
            events := [.Trickle p.PeerLocal trickle.Candidate trickle.Target]
            panicked := false }
  else
    { world := w, self := p, events := [], panicked := false }

end server

/-! ## `src/pkg/schedule/schedule.go` -/

namespace schedulecheck

/-- The inner scan of the tick (lines 24-30): `check` after
`for _, sid := range ssids`, left by `break` at the first `id == sid`. -/
def check (id : String) : List String → Bool
  | [] => false
  | sid :: rest => if id = sid then true else check id rest

/-- The outer loop of the tick (lines 23-37) over the entries of
`s.GetMapSession()` in the order the map yields them, carrying `deleteSs`
and `server.PullPeers`. -/
def sessionLoop (ssids : List String) :
    List (String × sfu.Session) → List sfu.Session × List (String × JSONSignal) →
    List sfu.Session × List (String × JSONSignal)
  | [], acc => acc
  | (id, ss) :: rest, (deleteSs, peers) =>
    if check id ssids = false then
      let peers1 := if (mapGet id peers).isSome then mapDelete id peers else peers
      sessionLoop ssids rest (deleteSs ++ [ss], peers1)
    else
      sessionLoop ssids rest (deleteSs, peers)

/-- The second loop of the tick (lines 39-42). -/
def removeLoop : List sfu.Session → List Event
  | [] => []
  | ss :: rest => .log "Schedule remove session..." :: .RemoveAllPeer ss :: removeLoop rest

/-- The function `ScheduleCheckSession` hands to the scheduler (lines
15-43), run once; `sessions` is what `s.GetMapSession()` returns. -/
def ScheduleCheckSession (env : Env) (w : World) (sessions : List (String × sfu.Session)) :
    Outcome :=
  let ssids := (cacheredis.GetCacheRedis env "sessionid").1
  let errGet := (cacheredis.GetCacheRedis env "sessionid").2
  let e0 : List Event :=
    match errGet with
    | some _ => [.log "Schedule check session...", .log "Err get redis"]
    | none => [.log "Schedule check session..."]
  let looped := sessionLoop ssids sessions ([], w.PullPeers)
  { world := { w with PullPeers := looped.2 }
    events := e0 ++ removeLoop looped.1
    panicked := false }

end schedulecheck

/-! ## Reading a list of events -/

/-- The event is a reply or an error reply on the signalling connection. -/
def Event.isReply : Event → Bool
  | .Reply _ _ => true
  | .ReplyWithError _ _ _ => true
  | _ => false

/-- The event closes a peer. -/
def Event.isClose : Event → Bool
  | .Close _ => true
  | _ => false

/-- The event belongs to federation: a dial, a new peer, a started
goroutine, an offer made for the join handshake, or a write on the relay. -/
def Event.isFederation : Event → Bool
  | .Dial _ => true
  | .SetCloseHandler _ => true
  | .NewPeer _ _ => true
  | .go_readMessage _ => true
  | .go_sendOfferJoin _ _ _ => true
  | .CreateOffer _ => true
  | .SetLocalDescription _ _ => true
  | .WriteMessage _ _ => true
  | _ => false

/-- The peer an operation of the media engine is invoked on. -/
def Event.peer : Event → Option sfu.PeerLocal
  | .Close p => some p
  | .Join p _ _ _ => some p
  | .Answer p _ => some p
  | .SetRemoteDescription p _ => some p
  | .Trickle p _ _ => some p
  | _ => none

/-- The websocket writes among the events, in order. -/
def writes : List Event → List (WsConn × WireMessage)
  | [] => []
  | .WriteMessage c m :: rest => (c, m) :: writes rest
  | _ :: rest => writes rest

/-- The `Trickle` calls among the events, in order. -/
def trickles : List Event → List (sfu.PeerLocal × webrtc.ICECandidateInit × Int)
  | [] => []
  | .Trickle p c t :: rest => (p, c, t) :: trickles rest
  | _ :: rest => trickles rest

/-- The sessions `RemoveAllPeer` was called on, in order. -/
def removed : List Event → List sfu.Session
  | [] => []
  | .RemoveAllPeer ss :: rest => ss :: removed rest
  | _ :: rest => removed rest

/-! ## Concrete inputs -/

/-- An environment in which every collaborator succeeds: the registry
read returns `registry`, `CheckSession` returns `chk`. -/
def exEnv (registry : List String × Option Error) (chk : CheckResult) : Env :=
  { redisGet := fun _ => ("cached", none)
    unmarshalStrings := fun _ => registry
    CheckSession := fun _ => chk
    Dial := fun _ => .ok { id := 1 }
    Join := fun _ _ _ _ => none
    Answer := fun _ _ => .ok { Kind := "answer", SDP := "v=0" }
    SetRemoteDescription := fun _ _ => none
    Trickle := fun _ _ _ => none
    CreateOffer := fun _ => ({ Kind := "offer", SDP := "v=0" }, none)
    SetLocalDescription := fun _ _ => none
    WriteMessage := fun _ _ => none
    Notify := fun _ => none
    uuid := 7 }

/-- An environment in which the redis read itself fails. -/
def exEnvRedisDown : Env :=
  { exEnv ([], none) { accept := true, newConn := false, s := { id := 0 } } with
    redisGet := fun _ => ("", some "dial tcp localhost:6379: connection refused") }

/-- A node with no relay connection and no pull peer. -/
def exWorld : World :=
  { Conn := none, PullPeers := [], AddrConn := "localhost:7070", nextPeer := 10 }

/-- A pull peer for a session, as `createPeer` builds it on connection 1. -/
def exPull (n : Nat) : JSONSignal :=
  { PeerLocal := { id := n }, OnOffer := none
    OnIceCandidate := some (.relayTrickle (some { Conn := { id := 1 } })) }

/-- A node federating `room-1` through pull peer 4 on connection 1. -/
def exWorldRoom1 : World :=
  { Conn := some { Conn := { id := 1 } }, PullPeers := [("room-1", exPull 4)]
    AddrConn := "localhost:7070", nextPeer := 10 }

/-- The signal of an end-user connection. -/
def exPeer : JSONSignal := NewJSONSignal { id := 1 }

/-- The offer carried by the example joins. -/
def exOffer : webrtc.SessionDescription := { Kind := "offer", SDP := "o" }

/-- A `join` request for `sid` with correlation id 3. -/
def exJoin (sid : String) : jsonrpc2.Request :=
  { Method := "join"
    Params := some (marshalJoin { SID := sid, UID := "u", Offer := exOffer, Config := zeroConfig })
    ID := { Num := 3, Str := "", IsString := false }
    Notif := false }

/-- `CheckSession` accepting a session that is already known locally. -/
def exKnown : CheckResult := { accept := true, newConn := false, s := { id := 0 } }

/-- `CheckSession` accepting a session it reports as new. -/
def exNew : CheckResult := { accept := true, newConn := true, s := { id := 0 } }

/-- `CheckSession` refusing the session. -/
def exRefused : CheckResult := { accept := false, newConn := false, s := { id := 0 } }

/-- A host candidate. -/
def exCandidate : webrtc.ICECandidateInit :=
  { Candidate := "candidate:1 1 udp 2130706431 10.0.0.1 5000 typ host"
    SDPMid := some "0", SDPMLineIndex := some 0, UsernameFragment := none }

/-- A message read from the relay for session `sid`. -/
def exRelay (method : String) (params : RawMessage) (sid : String) : Request :=
  { Method := method, Params := some params
    ID := { Num := 9, Str := "", IsString := false }, Sid := sid }

/-- The `trickle` message `createPeer` puts on the wire. -/
def trickleMessage (target : Int) (candidate : webrtc.ICECandidateInit) : WireMessage :=
  .jsonrpc { Method := "trickle"
             Params := some (marshalTrickle { Target := target, Candidate := candidate })
             ID := zeroID, Notif := false }

/-- The local session map of a node holding `room-1` only. -/
def exSessions : List (String × sfu.Session) := [("room-1", { ID := "room-1" })]

/-- A node federating `room-1` (pull peer 4) and `room-2` (pull peer 5). -/
def exWorldTwoRooms : World :=
  { Conn := some { Conn := { id := 1 } }
    PullPeers := [("room-1", exPull 4), ("room-2", exPull 5)]
    AddrConn := "localhost:7070", nextPeer := 10 }

/-- The local session map of a node holding `room-1` and `room-2`. -/
def exTwoSessions : List (String × sfu.Session) :=
  [("room-1", { ID := "room-1" }), ("room-2", { ID := "room-2" })]

/-- The event is a line written to the logger. -/
def Event.isLog : Event → Bool
  | .log _ => true
  | _ => false

/-- The event is the allocation of a peer by `sfu.NewPeer`. -/
def Event.isNewPeer : Event → Bool
  | .NewPeer _ _ => true
  | _ => false

/-- The event is a `Join` invoked on the peer `q`. -/
def Event.isJoinOn (q : sfu.PeerLocal) : Event → Bool
  | .Join p _ _ _ => decide (p = q)
  | _ => false

/-- The session id field a message carries on the wire: a `*Request` is
encoded with its `sid`, a `*jsonrpc2.Request` has no such field. -/
def server.WireMessage.sid : WireMessage → Option String
  | .jsonrpc _ => none
  | .request m => some m.Sid

/-- Params that `json.Unmarshal` rejects for every target type. -/
def exMalformed : RawMessage :=
  { asJoin := (zeroJoin, some "unexpected end of JSON input")
    asNegotiation := (zeroNegotiation, some "unexpected end of JSON input")
    asTrickle := (zeroTrickle, some "unexpected end of JSON input") }

/-- A request on the signalling connection with correlation id 3. -/
def exRequest (method : String) (params : RawMessage) : jsonrpc2.Request :=
  { Method := method, Params := some params
    ID := { Num := 3, Str := "", IsString := false }, Notif := false }

/-- An environment whose engine refuses every `Join`. -/
def exEnvJoinFails : Env :=
  { exEnv (["room-1"], none) exKnown with Join := fun _ _ _ _ => some "peer already exists" }

/-- An environment whose engine fails every `Answer`. -/
def exEnvAnswerFails : Env :=
  { exEnv (["room-1"], none) exKnown with Answer := fun _ _ => .error "no rtc transport" }

/-- An environment whose engine fails `SetRemoteDescription` and `Trickle`. -/
def exEnvEngineFails : Env :=
  { exEnv (["room-1"], none) exKnown with
    SetRemoteDescription := fun _ _ => some "no rtc transport"
    Trickle := fun _ _ _ => some "no rtc transport" }

/-- An environment in which the relay cannot be dialled. -/
def exEnvDialFails : Env :=
  { exEnv (["room-1"], none) exNew with Dial := fun _ => .error "connection refused" }

/-- An environment in which the relay cannot be dialled and the engine
refuses every `Join`. -/
def exEnvDialJoinFail : Env :=
  { exEnvDialFails with Join := fun _ _ _ _ => some "peer already exists" }

/-! ## Lemmas on the loops -/

theorem joinLoop_not_mem (env : Env) (w : World) (p : JSONSignal) (req : jsonrpc2.Request)
    (join : Join) (ssids : List String) (h : join.SID ∉ ssids) :
    joinLoop env w p req join ssids
      = { world := w, self := p, events := [], panicked := false } := by
  induction ssids with
  | nil => rfl
  | cons id rest ih =>
    have hne : ¬ id = join.SID := fun e => h (by simp [e])
    have hrest : join.SID ∉ rest := fun m => h (List.mem_cons_of_mem _ m)
    simp [joinLoop, hne, ih hrest]

theorem joinLoop_mem (env : Env) (w : World) (p : JSONSignal) (req : jsonrpc2.Request)
    (join : Join) (ssids : List String) (h : join.SID ∈ ssids) :
    joinLoop env w p req join ssids = joinMatched env w p req join := by
  induction ssids with
  | nil => simp at h
  | cons id rest ih =>
    by_cases hid : id = join.SID
    · simp [joinLoop, hid]
    · have hrest : join.SID ∈ rest := by
        rcases List.mem_cons.mp h with e | m
        · exact absurd e.symm hid
        · exact m
      simp [joinLoop, hid, ih hrest]

theorem ensureConn_events (env : Env) (w : World) :
    ∀ e ∈ (ensureConn env w).2, e.isReply = false ∧ e.isClose = false := by
  intro e he
  unfold ensureConn at he
  cases hc : w.Conn with
  | some c => simp [hc] at he
  | none =>
    simp only [hc, createConnWs] at he
    cases hd : env.Dial ("ws://" ++ w.AddrConn ++ "/pull") with
    | error err =>
      simp [hd] at he
      rcases he with h | h | h | h <;> subst h <;> simp [Event.isReply, Event.isClose]
    | ok c =>
      simp [hd] at he
      rcases he with h | h | h | h <;> subst h <;> simp [Event.isReply, Event.isClose]

theorem federate_events (env : Env) (w : World) (s : sfu.Provider) (sid : String) :
    ∀ e ∈ (federate env w s sid).2, e.isReply = false ∧ e.isClose = false := by
  intro e he
  simp only [federate, createPeer, List.mem_append, List.mem_singleton] at he
  rcases he with ((h | h) | h) | h
  · exact ensureConn_events env w e h
  · subst h; simp [Event.isReply, Event.isClose]
  · subst h; simp [Event.isReply, Event.isClose]
  · subst h; simp [Event.isReply, Event.isClose]

theorem sendOfferJoin_live (env : Env) (pc : sfu.PeerLocal) (ssid : String) (c : Connect) :
    (sendOfferJoin env pc ssid (some c)).1.2 = false := by
  simp only [sendOfferJoin, sendMess]
  cases env.SetLocalDescription pc (env.CreateOffer pc).1 with
  | some e => rfl
  | none =>
    simp only []
    cases env.WriteMessage c.Conn _ <;> rfl

theorem federate_not_fatal (env : Env) (w : World) (s : sfu.Provider) (sid : String)
    (h : w.Conn ≠ none ∨ ∃ c, env.Dial ("ws://" ++ w.AddrConn ++ "/pull") = .ok c) :
    (federate env w s sid).2.any (goroutineDies env) = false := by
  cases hc : w.Conn with
  | some c0 =>
    simp [federate, ensureConn, hc, createPeer, NewJSONSignal, goroutineDies,
      sendOfferJoin_live]
  | none =>
    rcases h with h | ⟨c, hd⟩
    · exact absurd hc h
    · simp [federate, ensureConn, hc, createConnWs, hd, createPeer, NewJSONSignal,
        goroutineDies, sendOfferJoin_live]

theorem joinMatched_not_fatal (env : Env) (w : World) (p : JSONSignal)
    (req : jsonrpc2.Request) (join : Join)
    (h : (env.CheckSession join.SID).newConn = true →
      w.Conn ≠ none ∨ ∃ c, env.Dial ("ws://" ++ w.AddrConn ++ "/pull") = .ok c) :
    (joinMatched env w p req join).fatal = false := by
  by_cases hn : (env.CheckSession join.SID).newConn = true
  · simp only [joinMatched, hn, if_true]
    exact federate_not_fatal env w _ _ (h hn)
  · simp [joinMatched, hn]

/-! ## Claims on `JSONSignal.Handle` -/

/-- C1 (evaluation at the failing input): the registry lists only `room-1`
and a well-formed join asks for `room-2`; `Handle` returns without a single
call, so the peer is not closed and the request is never answered, while
the same request with an empty sid does close the peer. -/
theorem Handle_join_unlisted_sid_not_closed :
    (Handle (exEnv (["room-1"], none) exKnown) exWorld exPeer (exJoin "room-2")).events = []
    ∧ (Handle (exEnv (["room-1"], none) exKnown) exWorld exPeer (exJoin "room-2")).panicked = false
    ∧ (Handle (exEnv (["room-1"], none) exKnown) exWorld exPeer (exJoin "")).events
        = [.Close exPeer.PeerLocal] := by
  decide

/-- C2: a join whose sid is not in the list the registry read returns leaves
the package-level variables (`PullPeers`, `Conn`, and with them the whole
`World`) as they were, and makes no federation call: no peer is created, no
goroutine is started, nothing is written on the relay. -/
theorem Handle_join_unlisted_sid_frame (env : Env) (w : World) (p : JSONSignal)
    (req : jsonrpc2.Request) (raw : RawMessage)
    (hm : req.Method = "join") (hp : req.Params = some raw)
    (hs : raw.asJoin.1.SID ∉ (cacheredis.GetCacheRedis env "sessionid").1) :
    (Handle env w p req).world.PullPeers = w.PullPeers
    ∧ (Handle env w p req).world.Conn = w.Conn
    ∧ (Handle env w p req).world = w
    ∧ ∀ e ∈ (Handle env w p req).events, e.isFederation = false := by
  have key : (Handle env w p req).world = w
      ∧ ∀ e ∈ (Handle env w p req).events, e.isFederation = false := by
    simp only [Handle, hm, hp, if_true]
    cases hparse : raw.asJoin.2 with
    | some err => simp [replyError, Event.isFederation]
    | none =>
      cases hreg : (cacheredis.GetCacheRedis env "sessionid").2 with
      | some err => simp [Event.isFederation]
      | none =>
        by_cases hsid : raw.asJoin.1.SID = ""
        · simp [hsid, Event.isFederation]
        · simp [hsid, joinLoop_not_mem env w p req raw.asJoin.1 _ hs]
  refine ⟨?_, ?_, key.1, key.2⟩
  · rw [key.1]
  · rw [key.1]

/-- C2 (witness): the join for `room-2` against a registry listing `room-1`,
on a node that already federates `room-1`. -/
theorem Handle_join_unlisted_sid_frame_witness :
    (Handle (exEnv (["room-1"], none) exNew) exWorldRoom1 exPeer (exJoin "room-2")).world.PullPeers
        = exWorldRoom1.PullPeers
    ∧ (Handle (exEnv (["room-1"], none) exNew) exWorldRoom1 exPeer (exJoin "room-2")).world.Conn
        = exWorldRoom1.Conn
    ∧ (Handle (exEnv (["room-1"], none) exNew) exWorldRoom1 exPeer (exJoin "room-2")).world
        = exWorldRoom1
    ∧ ∀ e ∈ (Handle (exEnv (["room-1"], none) exNew) exWorldRoom1 exPeer
        (exJoin "room-2")).events, e.isFederation = false :=
  Handle_join_unlisted_sid_frame (exEnv (["room-1"], none) exNew) exWorldRoom1 exPeer
    (exJoin "room-2")
    (marshalJoin { SID := "room-2", UID := "u", Offer := exOffer, Config := zeroConfig })
    rfl rfl (by decide)

/-- C3 (counterexample): three joins whose params parse, whose sid is in
the list the registry read returns, and for which the engine would let
`Join` and `Answer` succeed, and none of them is joined or answered: the
empty sid (listed by the registry) closes the peer, a session `CheckSession`
does not accept closes the peer, and a registry read that returns its list
together with an error ends the request with a log line. -/
theorem Handle_join_listed_sid_not_joined :
    ("" ∈ (cacheredis.GetCacheRedis (exEnv ([""], none) exKnown) "sessionid").1
      ∧ (Handle (exEnv ([""], none) exKnown) exWorld exPeer (exJoin "")).events
          = [.Close exPeer.PeerLocal])
    ∧ ("room-1" ∈ (cacheredis.GetCacheRedis (exEnv (["room-1"], none) exRefused) "sessionid").1
      ∧ (Handle (exEnv (["room-1"], none) exRefused) exWorld exPeer (exJoin "room-1")).events
          = [.CheckSession "room-1", .Close exPeer.PeerLocal])
    ∧ ("room-1" ∈ (cacheredis.GetCacheRedis
          (exEnv (["room-1", ""], some "json: cannot unmarshal number") exKnown) "sessionid").1
      ∧ (Handle (exEnv (["room-1", ""], some "json: cannot unmarshal number") exKnown)
          exWorld exPeer (exJoin "room-1")).events = [.log "Err get cache ssid"]) := by
  decide

/-- C3 (amended): for a join whose params parse, whose registry read returns
no error, whose sid is not empty and is in the list read, whose session
`CheckSession` accepts, for which `Join` and `Answer` succeed, and which, when
`CheckSession` reports the session as new, finds the relay connection in
place or can dial it, `Handle` ends with `Join(sid, uid, config)`, then
`Answer(offer)`, then the reply carrying the request id and that answer; this
is its only reply, no error reply is sent, no peer is closed, and neither
`Handle` nor a goroutine it started stops in a nil dereference. -/
theorem Handle_join_accepted (env : Env) (w : World) (p : JSONSignal)
    (req : jsonrpc2.Request) (raw : RawMessage) (answer : webrtc.SessionDescription)
    (hm : req.Method = "join") (hp : req.Params = some raw)
    (hparse : raw.asJoin.2 = none)
    (hreg : (cacheredis.GetCacheRedis env "sessionid").2 = none)
    (hs : raw.asJoin.1.SID ∈ (cacheredis.GetCacheRedis env "sessionid").1)
    (hne : raw.asJoin.1.SID ≠ "")
    (hacc : (env.CheckSession raw.asJoin.1.SID).accept = true)
    (hjoin : env.Join p.PeerLocal raw.asJoin.1.SID raw.asJoin.1.UID raw.asJoin.1.Config = none)
    (hans : env.Answer p.PeerLocal raw.asJoin.1.Offer = .ok answer)
    (hrelay : (env.CheckSession raw.asJoin.1.SID).newConn = true →
      w.Conn ≠ none ∨ ∃ c, env.Dial ("ws://" ++ w.AddrConn ++ "/pull") = .ok c) :
    (Handle env w p req).panicked = false
    ∧ (Handle env w p req).fatal = false
    ∧ (∃ pre, (Handle env w p req).events
          = pre ++ [.Join p.PeerLocal raw.asJoin.1.SID raw.asJoin.1.UID raw.asJoin.1.Config,
                    .Answer p.PeerLocal raw.asJoin.1.Offer, .Reply req.ID answer]
        ∧ ∀ e ∈ pre, e.isReply = false ∧ e.isClose = false)
    ∧ (Handle env w p req).events.filter Event.isReply = [.Reply req.ID answer]
    ∧ ∀ e ∈ (Handle env w p req).events, e.isClose = false := by
  have hH : Handle env w p req = joinMatched env w p req raw.asJoin.1 := by
    simp only [Handle, hm, hp, hparse, hreg, if_true]
    simp [hne, joinLoop_mem env w p req raw.asJoin.1 _ hs]
  have hpre : ∀ e ∈ ([Event.CheckSession raw.asJoin.1.SID]
      ++ (if (env.CheckSession raw.asJoin.1.SID).newConn = true
            then federate env w (env.CheckSession raw.asJoin.1.SID).s raw.asJoin.1.SID
            else (w, [])).2), e.isReply = false ∧ e.isClose = false := by
    intro e he
    rcases List.mem_append.mp he with h | h
    · simp at h; subst h; simp [Event.isReply, Event.isClose]
    · by_cases hn : (env.CheckSession raw.asJoin.1.SID).newConn = true
      · simp only [hn, if_true] at h
        exact federate_events env w _ _ e h
      · simp [hn] at h
  have hev : (Handle env w p req).events
      = ([Event.CheckSession raw.asJoin.1.SID]
          ++ (if (env.CheckSession raw.asJoin.1.SID).newConn = true
                then federate env w (env.CheckSession raw.asJoin.1.SID).s raw.asJoin.1.SID
                else (w, [])).2)
        ++ [.Join p.PeerLocal raw.asJoin.1.SID raw.asJoin.1.UID raw.asJoin.1.Config,
            .Answer p.PeerLocal raw.asJoin.1.Offer, .Reply req.ID answer] := by
    rw [hH]
    simp [joinMatched, acceptJoin, hacc, hjoin, hans]
  refine ⟨by rw [hH]; rfl, by rw [hH]; exact joinMatched_not_fatal env w p req _ hrelay,
    ⟨_, hev, hpre⟩, ?_, ?_⟩
  · rw [hev, List.filter_append]
    have h0 : List.filter Event.isReply ([Event.CheckSession raw.asJoin.1.SID]
          ++ (if (env.CheckSession raw.asJoin.1.SID).newConn = true
                then federate env w (env.CheckSession raw.asJoin.1.SID).s raw.asJoin.1.SID
                else (w, [])).2) = [] := by
      rw [List.filter_eq_nil_iff]
      intro e he
      simp [(hpre e he).1]
    rw [h0]
    simp [List.filter, Event.isReply]
  · intro e he
    rw [hev] at he
    rcases List.mem_append.mp he with h | h
    · exact (hpre e h).2
    · simp at h
      rcases h with h | h | h <;> subst h <;> simp [Event.isClose]

/-- C3 (witness): the first join for `room-1`, which also starts federation
on a relay that can be dialled. -/
theorem Handle_join_accepted_witness :
    (Handle (exEnv (["room-1"], none) exNew) exWorld exPeer (exJoin "room-1")).panicked = false
    ∧ (Handle (exEnv (["room-1"], none) exNew) exWorld exPeer (exJoin "room-1")).fatal = false
    ∧ (∃ pre, (Handle (exEnv (["room-1"], none) exNew) exWorld exPeer (exJoin "room-1")).events
          = pre ++ [.Join exPeer.PeerLocal "room-1" "u" zeroConfig,
                    .Answer exPeer.PeerLocal exOffer,
                    .Reply { Num := 3, Str := "", IsString := false }
                      { Kind := "answer", SDP := "v=0" }]
        ∧ ∀ e ∈ pre, e.isReply = false ∧ e.isClose = false)
    ∧ (Handle (exEnv (["room-1"], none) exNew) exWorld exPeer (exJoin "room-1")).events.filter
          Event.isReply
        = [.Reply { Num := 3, Str := "", IsString := false } { Kind := "answer", SDP := "v=0" }]
    ∧ ∀ e ∈ (Handle (exEnv (["room-1"], none) exNew) exWorld exPeer (exJoin "room-1")).events,
        e.isClose = false :=
  Handle_join_accepted (exEnv (["room-1"], none) exNew) exWorld exPeer (exJoin "room-1")
    (marshalJoin { SID := "room-1", UID := "u", Offer := exOffer, Config := zeroConfig })
    { Kind := "answer", SDP := "v=0" } rfl rfl rfl rfl (by decide) (by decide) rfl rfl rfl
    (fun _ => Or.inr ⟨{ id := 1 }, rfl⟩)

theorem acceptJoin_events (env : Env) (p : JSONSignal) (req : jsonrpc2.Request) (join : Join)
    (accept : Bool) : ∀ e ∈ acceptJoin env p req join accept, e.isFederation = false := by
  intro e he
  unfold acceptJoin at he
  cases accept with
  | false =>
    simp at he; subst he; rfl
  | true =>
    simp only [if_true] at he
    cases hj : env.Join p.PeerLocal join.SID join.UID join.Config with
    | some err =>
      simp [hj, replyError] at he
      rcases he with h | h <;> subst h <;> rfl
    | none =>
      cases ha : env.Answer p.PeerLocal join.Offer with
      | error err =>
        simp [hj, ha, replyError] at he
        rcases he with h | h | h <;> subst h <;> rfl
      | ok answer =>
        simp [hj, ha] at he
        rcases he with h | h | h <;> subst h <;> rfl

theorem joinLoop_no_new_session (env : Env) (w : World) (p : JSONSignal)
    (req : jsonrpc2.Request) (join : Join) (ssids : List String)
    (hnew : (env.CheckSession join.SID).newConn = false) :
    (joinLoop env w p req join ssids).world = w
    ∧ ∀ e ∈ (joinLoop env w p req join ssids).events, e.isFederation = false := by
  by_cases hs : join.SID ∈ ssids
  · rw [joinLoop_mem env w p req join ssids hs]
    refine ⟨by simp [joinMatched, hnew], ?_⟩
    intro e he
    simp only [joinMatched, hnew, List.append_nil, List.mem_append,
      List.mem_singleton] at he
    rcases he with h | h
    · simp at h; subst h; rfl
    · exact acceptJoin_events env _ req join _ e h
  · rw [joinLoop_not_mem env w p req join ssids hs]
    simp

/-- C4 (counterexample): `room-1` already has pull peer 4 in `PullPeers`, the
registry lists it, and `CheckSession` reports the session as new.  `Handle`
allocates peer 10, stores it under `room-1` in place of peer 4 and starts
`sendOfferJoin`, which writes a `join` for `room-1` on the relay. -/
theorem Handle_join_existing_entry_overwritten :
    mapGet "room-1" exWorldRoom1.PullPeers = some (exPull 4)
    ∧ mapGet "room-1"
        (Handle (exEnv (["room-1"], none) exNew) exWorldRoom1 exPeer (exJoin "room-1")).world.PullPeers
        = some (exPull 10)
    ∧ (Handle (exEnv (["room-1"], none) exNew) exWorldRoom1 exPeer (exJoin "room-1")).events
        = [.CheckSession "room-1", .NewPeer { id := 0 } { id := 10 },
           .Join { id := 10 } "room-1" "pull" zeroConfig,
           .go_sendOfferJoin { id := 10 } "room-1" (some { Conn := { id := 1 } }),
           .Join exPeer.PeerLocal "room-1" "u" zeroConfig, .Answer exPeer.PeerLocal exOffer,
           .Reply { Num := 3, Str := "", IsString := false } { Kind := "answer", SDP := "v=0" }]
    ∧ writes (sendOfferJoin (exEnv (["room-1"], none) exNew) { id := 10 } "room-1"
          (some { Conn := { id := 1 } })).1.1
        = [({ id := 1 },
            .request { Method := "join"
                       Params := some (marshalJoin
                         { SID := "room-1", UID := "", Offer := { Kind := "offer", SDP := "v=0" }
                           Config := zeroConfig })
                       ID := { Num := 7, Str := "", IsString := false }
                       Sid := "room-1" })] := by
  decide

/-- C4 (amended): for a join whose sid already has an entry in `PullPeers`
and for which `CheckSession` reports `newConn = false`, `Handle` leaves the
package-level variables as they were (the entry is the one found before, no
peer number is used up, `Conn` is the same) and makes no federation call:
no new peer, no goroutine, no write on the relay.  `Handle` does not read
`PullPeers`; the gate is `newConn` alone. -/
theorem Handle_join_no_new_session (env : Env) (w : World) (p : JSONSignal)
    (req : jsonrpc2.Request) (raw : RawMessage) (existing : JSONSignal)
    (hm : req.Method = "join") (hp : req.Params = some raw)
    (hentry : mapGet raw.asJoin.1.SID w.PullPeers = some existing)
    (hnew : (env.CheckSession raw.asJoin.1.SID).newConn = false) :
    (Handle env w p req).world = w
    ∧ mapGet raw.asJoin.1.SID (Handle env w p req).world.PullPeers = some existing
    ∧ ∀ e ∈ (Handle env w p req).events, e.isFederation = false := by
  have key : (Handle env w p req).world = w
      ∧ ∀ e ∈ (Handle env w p req).events, e.isFederation = false := by
    simp only [Handle, hm, hp, if_true]
    cases hparse : raw.asJoin.2 with
    | some err => simp [replyError, Event.isFederation]
    | none =>
      cases hreg : (cacheredis.GetCacheRedis env "sessionid").2 with
      | some err => simp [Event.isFederation]
      | none =>
        by_cases hsid : raw.asJoin.1.SID = ""
        · simp [hsid, Event.isFederation]
        · simp only [ne_eq, hsid, not_false_eq_true, if_true]
          exact joinLoop_no_new_session env w p req raw.asJoin.1 _ hnew
  exact ⟨key.1, by rw [key.1]; exact hentry, key.2⟩

/-- C4 (witness): a second join for `room-1` on a node that federates it already. -/
theorem Handle_join_no_new_session_witness :
    (Handle (exEnv (["room-1"], none) exKnown) exWorldRoom1 exPeer (exJoin "room-1")).world
        = exWorldRoom1
    ∧ mapGet "room-1"
        (Handle (exEnv (["room-1"], none) exKnown) exWorldRoom1 exPeer (exJoin "room-1")).world.PullPeers
        = some (exPull 4)
    ∧ ∀ e ∈ (Handle (exEnv (["room-1"], none) exKnown) exWorldRoom1 exPeer
        (exJoin "room-1")).events, e.isFederation = false :=
  Handle_join_no_new_session (exEnv (["room-1"], none) exKnown) exWorldRoom1 exPeer
    (exJoin "room-1")
    (marshalJoin { SID := "room-1", UID := "u", Offer := exOffer, Config := zeroConfig })
    (exPull 4) rfl rfl (by decide) rfl

/-! ## Claims on the relay -/

/-- C5: the candidate callback `createPeer` installs, run on a candidate and
a target `T` that is 0 or 1 with a relay connection in place, makes exactly
one write on that connection: the `trickle` message with target `1 - T` and
the same candidate; so does the callback of `createPeer` in package `pull`
on its websocket; and the switch applied twice gives `T` back. -/
theorem createPeer_candidate_target_flipped (env : Env) (peerLocal : sfu.PeerLocal)
    (conn : Connect) (ws : WsConn) (id : String) (candidate : webrtc.ICECandidateInit)
    (T : Int) (hT : T = 0 ∨ T = 1) :
    writes (runOnIceCandidate env (server.createPeer peerLocal (some conn) id).1
        (some candidate) T).1 = [(conn.Conn, trickleMessage (1 - T) candidate)]
    ∧ (runOnIceCandidate env (server.createPeer peerLocal (some conn) id).1
        (some candidate) T).2 = false
    ∧ runOnIceCandidate env (pull.createPeer peerLocal (some ws)) (some candidate) T
        = ([.WriteMessage ws (trickleMessage (1 - T) candidate)], false)
    ∧ flipTarget (flipTarget T) = T := by
  rcases hT with h | h <;> subst h
  · refine ⟨?_, ?_, ?_, by decide⟩
    · cases hw : env.WriteMessage conn.Conn (trickleMessage 1 candidate) <;>
        simp [runOnIceCandidate, server.createPeer, NewJSONSignal, relayTrickle, sendMess,
          flipTarget, trickleMessage, writes] at hw ⊢ <;> simp [hw, writes]
    · cases hw : env.WriteMessage conn.Conn (trickleMessage 1 candidate) <;>
        simp [runOnIceCandidate, server.createPeer, NewJSONSignal, relayTrickle, sendMess,
          flipTarget, trickleMessage] at hw ⊢ <;> simp [hw]
    · simp [runOnIceCandidate, pull.createPeer, NewJSONSignal, pull.wsTrickle, flipTarget,
        trickleMessage]
  · refine ⟨?_, ?_, ?_, by decide⟩
    · cases hw : env.WriteMessage conn.Conn (trickleMessage 0 candidate) <;>
        simp [runOnIceCandidate, server.createPeer, NewJSONSignal, relayTrickle, sendMess,
          flipTarget, trickleMessage, writes] at hw ⊢ <;> simp [hw, writes]
    · cases hw : env.WriteMessage conn.Conn (trickleMessage 0 candidate) <;>
        simp [runOnIceCandidate, server.createPeer, NewJSONSignal, relayTrickle, sendMess,
          flipTarget, trickleMessage] at hw ⊢ <;> simp [hw]
    · simp [runOnIceCandidate, pull.createPeer, NewJSONSignal, pull.wsTrickle, flipTarget,
        trickleMessage]

/-- C5 (witness): the subscriber candidate (target 1) of a pull peer goes
out with target 0. -/
theorem createPeer_candidate_target_flipped_witness :
    writes (runOnIceCandidate (exEnv ([], none) exKnown)
        (server.createPeer { id := 4 } (some { Conn := { id := 1 } }) "room-1").1
        (some exCandidate) 1).1 = [({ id := 1 }, trickleMessage (1 - 1) exCandidate)]
    ∧ (runOnIceCandidate (exEnv ([], none) exKnown)
        (server.createPeer { id := 4 } (some { Conn := { id := 1 } }) "room-1").1
        (some exCandidate) 1).2 = false
    ∧ runOnIceCandidate (exEnv ([], none) exKnown) (pull.createPeer { id := 4 } (some { id := 2 }))
        (some exCandidate) 1
        = ([.WriteMessage { id := 2 } (trickleMessage (1 - 1) exCandidate)], false)
    ∧ flipTarget (flipTarget 1) = 1 :=
  createPeer_candidate_target_flipped (exEnv ([], none) exKnown) { id := 4 }
    { Conn := { id := 1 } } { id := 2 } "room-1" exCandidate 1 (Or.inr rfl)

/-- C6 (counterexample): `room-1` has pull peer 4; a `trickle` read from the
relay with target 0 reaches `Trickle` of peer 4 with target 0, and one with
target 1 reaches it with target 1: the target is not switched on the way in. -/
theorem readMessage_trickle_target_kept :
    trickles (readMessageStep (exEnv ([], none) exKnown) { Conn := { id := 1 } } exWorldRoom1
        (exRelay "trickle" (marshalTrickle { Target := 0, Candidate := exCandidate })
          "room-1")).events = [({ id := 4 }, exCandidate, 0)]
    ∧ trickles (readMessageStep (exEnv ([], none) exKnown) { Conn := { id := 1 } } exWorldRoom1
        (exRelay "trickle" (marshalTrickle { Target := 1, Candidate := exCandidate })
          "room-1")).events = [({ id := 4 }, exCandidate, 1)] := by
  decide

/-- C6 (amended): a `trickle` message read from the relay with target `T`
and a session id that has a pull peer in `PullPeers` is delivered to
`Trickle` of that peer, once, with its candidate and the same target `T`;
this holds for the loop body and for `readMessage` run on that one message. -/
theorem readMessage_trickle_delivered (env : Env) (c : Connect) (w : World)
    (response : Request) (raw : RawMessage) (peer : JSONSignal) (T : Int)
    (hm : response.Method = "trickle") (hp : response.Params = some raw)
    (hpeer : mapGet response.Sid w.PullPeers = some peer)
    (hT : raw.asTrickle.1.Target = T) :
    trickles (readMessageStep env c w response).events
        = [(peer.PeerLocal, raw.asTrickle.1.Candidate, T)]
    ∧ trickles (readMessage env (some c) w [response]).events
        = [(peer.PeerLocal, raw.asTrickle.1.Candidate, T)] := by
  have hstep : trickles (readMessageStep env c w response).events
      = [(peer.PeerLocal, raw.asTrickle.1.Candidate, T)] := by
    subst hT
    simp only [readMessageStep, hm, hp, hpeer]
    cases raw.asTrickle.2 <;>
      cases env.Trickle peer.PeerLocal raw.asTrickle.1.Candidate raw.asTrickle.1.Target <;>
      simp [trickles]
  have hnp : (readMessageStep env c w response).panicked = false := by
    simp only [readMessageStep, hm, hp, hpeer]
    simp
  refine ⟨hstep, ?_⟩
  simp [readMessage, readLoop, hnp, hstep]

/-- C6 (witness): the `trickle` with target 1 for `room-1`. -/
theorem readMessage_trickle_delivered_witness :
    trickles (readMessageStep (exEnv ([], none) exKnown) { Conn := { id := 1 } } exWorldRoom1
        (exRelay "trickle" (marshalTrickle { Target := 1, Candidate := exCandidate })
          "room-1")).events = [((exPull 4).PeerLocal, exCandidate, 1)]
    ∧ trickles (readMessage (exEnv ([], none) exKnown) (some { Conn := { id := 1 } }) exWorldRoom1
        [exRelay "trickle" (marshalTrickle { Target := 1, Candidate := exCandidate })
          "room-1"]).events = [((exPull 4).PeerLocal, exCandidate, 1)] :=
  readMessage_trickle_delivered (exEnv ([], none) exKnown) { Conn := { id := 1 } } exWorldRoom1
    (exRelay "trickle" (marshalTrickle { Target := 1, Candidate := exCandidate }) "room-1")
    (marshalTrickle { Target := 1, Candidate := exCandidate }) (exPull 4) 1
    rfl rfl (by decide) rfl

theorem readLoop_unregistered (env : Env) (c : Connect) (w : World) (inbox : List Request)
    (hstep : ∀ r : Request, mapGet r.Sid w.PullPeers = none →
      readMessageStep env c w r = { world := w, events := [], panicked := false })
    (h : ∀ r ∈ inbox, mapGet r.Sid w.PullPeers = none) :
    readLoop env c w inbox = { world := w, events := [], panicked := false } := by
  induction inbox with
  | nil => rfl
  | cons r rest ih =>
    have hr := hstep r (h r (by simp))
    have hrest := ih (fun r2 m => h r2 (List.mem_cons_of_mem _ m))
    simp [readLoop, hr, hrest]

/-- C10: a message read from the relay whose session id has no entry in
`PullPeers` is dropped whatever its method: the loop body makes no call at
all (no peer operation, no write) and leaves the package-level variables as
they were, and so does `readMessage` on any run of such messages; and for a
message whose session id has an entry, every peer operation invoked is on
the peer stored under that id, with `PullPeers` unchanged. -/
theorem readMessage_unregistered_dropped (env : Env) (c : Connect) (w : World)
    (response : Request) :
    (mapGet response.Sid w.PullPeers = none →
      readMessageStep env c w response = { world := w, events := [], panicked := false })
    ∧ (∀ inbox : List Request, (∀ r ∈ inbox, mapGet r.Sid w.PullPeers = none) →
        readMessage env (some c) w inbox = { world := w, events := [], panicked := false })
    ∧ (∀ peer : JSONSignal, mapGet response.Sid w.PullPeers = some peer →
        (readMessageStep env c w response).world = w
        ∧ ∀ e ∈ (readMessageStep env c w response).events,
            ∀ q : sfu.PeerLocal, e.peer = some q → q = peer.PeerLocal) := by
  have hdrop : ∀ r : Request, mapGet r.Sid w.PullPeers = none →
      readMessageStep env c w r = { world := w, events := [], panicked := false } := by
    intro r hr
    unfold readMessageStep
    simp only [hr]
    split_ifs <;> rfl
  refine ⟨hdrop response, ?_, ?_⟩
  · intro inbox h
    exact readLoop_unregistered env c w inbox hdrop h
  · intro peer hpeer
    cases hP : response.Params with
    | none =>
      simp only [readMessageStep, hpeer, hP]
      split_ifs <;> simp
    | some raw =>
      simp only [readMessageStep, hpeer, hP]
      split_ifs
      · cases raw.asNegotiation.2 <;>
          cases env.SetRemoteDescription peer.PeerLocal raw.asNegotiation.1.Desc <;>
          simp [Event.peer]
      · cases hA : env.Answer peer.PeerLocal raw.asNegotiation.1.Desc with
        | error err => simp [Event.peer]
        | ok answer =>
          simp only [sendMess]
          cases env.WriteMessage c.Conn _ <;> simp [Event.peer]
      · cases raw.asTrickle.2 <;>
          cases env.Trickle peer.PeerLocal raw.asTrickle.1.Candidate raw.asTrickle.1.Target <;>
          simp [Event.peer]
      · simp

/-- C10 (witness): on a node federating `room-1`, an `offer` for `room-9` is
dropped, and an `offer` for `room-1` touches peer 4 only. -/
theorem readMessage_unregistered_dropped_witness :
    readMessageStep (exEnv ([], none) exKnown) { Conn := { id := 1 } } exWorldRoom1
        (exRelay "offer" (marshalNegotiation { Desc := exOffer }) "room-9")
      = { world := exWorldRoom1, events := [], panicked := false }
    ∧ readMessage (exEnv ([], none) exKnown) (some { Conn := { id := 1 } }) exWorldRoom1
        [exRelay "offer" (marshalNegotiation { Desc := exOffer }) "room-9",
         exRelay "trickle" (marshalTrickle { Target := 0, Candidate := exCandidate }) "room-9"]
      = { world := exWorldRoom1, events := [], panicked := false }
    ∧ ∀ e ∈ (readMessageStep (exEnv ([], none) exKnown) { Conn := { id := 1 } } exWorldRoom1
          (exRelay "offer" (marshalNegotiation { Desc := exOffer }) "room-1")).events,
        ∀ q : sfu.PeerLocal, e.peer = some q → q = (exPull 4).PeerLocal :=
  ⟨(readMessage_unregistered_dropped (exEnv ([], none) exKnown) { Conn := { id := 1 } }
      exWorldRoom1 (exRelay "offer" (marshalNegotiation { Desc := exOffer }) "room-9")).1
      (by decide),
   (readMessage_unregistered_dropped (exEnv ([], none) exKnown) { Conn := { id := 1 } }
      exWorldRoom1 (exRelay "offer" (marshalNegotiation { Desc := exOffer }) "room-9")).2.1
      _ (by decide),
   ((readMessage_unregistered_dropped (exEnv ([], none) exKnown) { Conn := { id := 1 } }
      exWorldRoom1 (exRelay "offer" (marshalNegotiation { Desc := exOffer }) "room-1")).2.2
      (exPull 4) (by decide)).2⟩

/-! ## Claims on the reconciliation tick -/

open schedulecheck

theorem check_eq_decide (id : String) (ssids : List String) :
    check id ssids = decide (id ∈ ssids) := by
  induction ssids with
  | nil => simp [check]
  | cons sid rest ih =>
    by_cases h : id = sid
    · simp [check, h]
    · simp [check, h, ih]

theorem mapDelete_of_mapGet_none {α : Type} (k : String) (m : List (String × α))
    (h : mapGet k m = none) : mapDelete k m = m := by
  induction m with
  | nil => rfl
  | cons e rest ih =>
    obtain ⟨k1, v⟩ := e
    by_cases hk : k1 = k
    · simp [mapGet, hk] at h
    · simp only [mapGet, hk, if_false] at h
      have hrest := ih h
      unfold mapDelete at hrest ⊢
      have hd : decide ((k1, v).1 ≠ k) = true := by simpa using hk
      rw [List.filter_cons, if_pos hd, hrest]

theorem mapGet_filter_keep {α : Type} (id : String) (f : String × α → Bool)
    (m : List (String × α)) (h : ∀ v, f (id, v) = true) :
    mapGet id (m.filter f) = mapGet id m := by
  induction m with
  | nil => rfl
  | cons e rest ih =>
    obtain ⟨k1, v⟩ := e
    by_cases hf : f (k1, v) = true
    · simp [List.filter_cons, hf, mapGet, ih]
    · have hk : ¬ k1 = id := fun e => hf (e ▸ h v)
      simp [List.filter_cons, hf, mapGet, hk, ih]

theorem mapGet_filter_drop {α : Type} (id : String) (f : String × α → Bool)
    (m : List (String × α)) (h : ∀ v, f (id, v) = false) :
    mapGet id (m.filter f) = none := by
  induction m with
  | nil => rfl
  | cons e rest ih =>
    obtain ⟨k1, v⟩ := e
    by_cases hf : f (k1, v) = true
    · have hk : ¬ k1 = id := fun e => by
        rw [e, h v] at hf
        exact Bool.false_ne_true hf
      simp [List.filter_cons, hf, mapGet, hk, ih]
    · simp [List.filter_cons, hf, ih]

theorem sessionLoop_eq (ssids : List String) (sessions : List (String × sfu.Session))
    (deleteSs : List sfu.Session) (peers : List (String × JSONSignal)) :
    sessionLoop ssids sessions (deleteSs, peers)
      = (deleteSs ++ (sessions.filter (fun e => decide (e.1 ∉ ssids))).map Prod.snd,
         peers.filter (fun e => decide
           (e.1 ∉ (sessions.filter (fun e => decide (e.1 ∉ ssids))).map Prod.fst))) := by
  induction sessions generalizing deleteSs peers with
  | nil => simp [sessionLoop]
  | cons e rest ih =>
    obtain ⟨id, ss⟩ := e
    by_cases h : id ∈ ssids
    · have hf : List.filter (fun e => decide (e.1 ∉ ssids)) ((id, ss) :: rest)
          = List.filter (fun e => decide (e.1 ∉ ssids)) rest := by
        rw [List.filter_cons]
        simp [h]
      have hstep : sessionLoop ssids ((id, ss) :: rest) (deleteSs, peers)
          = sessionLoop ssids rest (deleteSs, peers) := by
        simp [sessionLoop, check_eq_decide, h]
      rw [hf, hstep, ih]
    · have hdel : (if (mapGet id peers).isSome = true then mapDelete id peers else peers)
          = mapDelete id peers := by
        cases hg : mapGet id peers with
        | none => simp [mapDelete_of_mapGet_none id peers hg]
        | some v => simp
      have hf : List.filter (fun e => decide (e.1 ∉ ssids)) ((id, ss) :: rest)
          = (id, ss) :: List.filter (fun e => decide (e.1 ∉ ssids)) rest := by
        rw [List.filter_cons]
        simp [h]
      have hstep : sessionLoop ssids ((id, ss) :: rest) (deleteSs, peers)
          = sessionLoop ssids rest (deleteSs ++ [ss], mapDelete id peers) := by
        simp only [sessionLoop, check_eq_decide, h, decide_False, if_true, hdel]
      rw [hf, hstep, ih]
      simp only [List.map_cons, List.append_assoc, List.singleton_append, mapDelete,
        List.filter_filter]
      congr 1
      apply List.filter_congr
      intro x _
      by_cases hx : x.1 = id <;> simp [hx]

theorem removed_removeLoop (l : List sfu.Session) : removed (removeLoop l) = l := by
  induction l with
  | nil => rfl
  | cons ss rest ih => simp [removeLoop, removed, ih]

theorem ScheduleCheckSession_removed (env : Env) (w : World)
    (sessions : List (String × sfu.Session)) :
    removed (ScheduleCheckSession env w sessions).events
      = (sessions.filter (fun e => decide
          (e.1 ∉ (cacheredis.GetCacheRedis env "sessionid").1))).map Prod.snd := by
  simp only [ScheduleCheckSession, sessionLoop_eq, List.nil_append]
  cases (cacheredis.GetCacheRedis env "sessionid").2 <;>
    simp [removed, removed_removeLoop]

theorem ScheduleCheckSession_peers (env : Env) (w : World)
    (sessions : List (String × sfu.Session)) :
    (ScheduleCheckSession env w sessions).world.PullPeers
      = w.PullPeers.filter (fun e => decide
          (e.1 ∉ (sessions.filter (fun e => decide
            (e.1 ∉ (cacheredis.GetCacheRedis env "sessionid").1))).map Prod.fst)) := by
  simp only [ScheduleCheckSession, sessionLoop_eq]

/-- C7: on a tick whose registry read succeeds, `RemoveAllPeer` is called on
exactly the sessions of the local session map whose id is not in the list
read, in map order; `PullPeers` after the tick is `PullPeers` before without
the entries keyed by those ids; every id in the list read has the same entry
after as before, and no session removed is keyed by an id in the list read. -/
theorem ScheduleCheckSession_evicts_unlisted (env : Env) (w : World)
    (sessions : List (String × sfu.Session))
    (hread : (cacheredis.GetCacheRedis env "sessionid").2 = none) :
    removed (ScheduleCheckSession env w sessions).events
        = (sessions.filter (fun e => decide
            (e.1 ∉ (cacheredis.GetCacheRedis env "sessionid").1))).map Prod.snd
    ∧ (ScheduleCheckSession env w sessions).world.PullPeers
        = w.PullPeers.filter (fun e => decide
            (e.1 ∉ (sessions.filter (fun e => decide
              (e.1 ∉ (cacheredis.GetCacheRedis env "sessionid").1))).map Prod.fst))
    ∧ (∀ id ∈ (cacheredis.GetCacheRedis env "sessionid").1,
        mapGet id (ScheduleCheckSession env w sessions).world.PullPeers = mapGet id w.PullPeers)
    ∧ (∀ ss ∈ removed (ScheduleCheckSession env w sessions).events,
        ∃ id, (id, ss) ∈ sessions ∧ id ∉ (cacheredis.GetCacheRedis env "sessionid").1)
    ∧ (ScheduleCheckSession env w sessions).world.Conn = w.Conn
    ∧ (ScheduleCheckSession env w sessions).events
        = .log "Schedule check session..."
          :: removeLoop ((sessions.filter (fun e => decide
              (e.1 ∉ (cacheredis.GetCacheRedis env "sessionid").1))).map Prod.snd) := by
  refine ⟨ScheduleCheckSession_removed env w sessions, ScheduleCheckSession_peers env w sessions,
    ?_, ?_, rfl, ?_⟩
  · intro id hid
    rw [ScheduleCheckSession_peers]
    apply mapGet_filter_keep
    intro v
    simp only [decide_eq_true_eq, List.mem_map, List.mem_filter, not_exists, not_and]
    rintro ⟨k, ss⟩ ⟨_, hk⟩ rfl
    exact hk hid
  · intro ss hss
    rw [ScheduleCheckSession_removed] at hss
    simp only [List.mem_map, List.mem_filter, decide_eq_true_eq] at hss
    obtain ⟨⟨k, ss2⟩, ⟨hmem, hk⟩, rfl⟩ := hss
    exact ⟨k, hmem, hk⟩
  · simp only [ScheduleCheckSession, sessionLoop_eq, hread, List.nil_append]
    rfl

/-- C7 (witness): the registry lists `room-2` only; `room-1` is told to drop
its peers and loses its entry, `room-2` keeps its entry. -/
theorem ScheduleCheckSession_evicts_unlisted_witness :
    removed (ScheduleCheckSession (exEnv (["room-2"], none) exKnown) exWorldTwoRooms
        exTwoSessions).events = [{ ID := "room-1" }]
    ∧ (ScheduleCheckSession (exEnv (["room-2"], none) exKnown) exWorldTwoRooms
        exTwoSessions).world.PullPeers = [("room-2", exPull 5)]
    ∧ mapGet "room-2" (ScheduleCheckSession (exEnv (["room-2"], none) exKnown) exWorldTwoRooms
        exTwoSessions).world.PullPeers = mapGet "room-2" exWorldTwoRooms.PullPeers :=
  ⟨(ScheduleCheckSession_evicts_unlisted (exEnv (["room-2"], none) exKnown) exWorldTwoRooms
      exTwoSessions rfl).1.trans (by decide),
   (ScheduleCheckSession_evicts_unlisted (exEnv (["room-2"], none) exKnown) exWorldTwoRooms
      exTwoSessions rfl).2.1.trans (by decide),
   (ScheduleCheckSession_evicts_unlisted (exEnv (["room-2"], none) exKnown) exWorldTwoRooms
      exTwoSessions rfl).2.2.1 "room-2" (by decide)⟩

/-- C8 (counterexample): the registry read succeeds with an empty list, the
local session map is empty, and `PullPeers` holds an entry for `room-1`; the
id is absent from the snapshot and the entry is still there after the tick. -/
theorem ScheduleCheckSession_keeps_entry_without_session :
    (cacheredis.GetCacheRedis (exEnv ([], none) exKnown) "sessionid") = ([], none)
    ∧ "room-1" ∉ (cacheredis.GetCacheRedis (exEnv ([], none) exKnown) "sessionid").1
    ∧ mapGet "room-1"
        (ScheduleCheckSession (exEnv ([], none) exKnown) exWorldRoom1 []).world.PullPeers
        = some (exPull 4) := by
  decide

/-- C8 (amended): after a tick, every key of the local session map that is
absent from the list the tick read has no entry in `PullPeers`, whatever
`PullPeers` held before; the tick looks at the keys of the local session map
only, so the entry of an id that is not a key of that map is what it was. -/
theorem ScheduleCheckSession_unlisted_local_evicted (env : Env) (w : World)
    (sessions : List (String × sfu.Session)) (id : String) :
    ((∃ ss, (id, ss) ∈ sessions) → id ∉ (cacheredis.GetCacheRedis env "sessionid").1 →
        mapGet id (ScheduleCheckSession env w sessions).world.PullPeers = none)
    ∧ ((∀ ss, (id, ss) ∉ sessions) →
        mapGet id (ScheduleCheckSession env w sessions).world.PullPeers
          = mapGet id w.PullPeers) := by
  constructor
  · rintro ⟨ss, hmem⟩ hid
    rw [ScheduleCheckSession_peers]
    apply mapGet_filter_drop
    intro v
    simp only [decide_eq_false_iff_not, not_not, List.mem_map, List.mem_filter,
      decide_eq_true_eq]
    exact ⟨(id, ss), ⟨hmem, hid⟩, rfl⟩
  · intro hno
    rw [ScheduleCheckSession_peers]
    apply mapGet_filter_keep
    intro v
    simp only [decide_eq_true_eq, List.mem_map, List.mem_filter, not_exists, not_and]
    rintro ⟨k, ss⟩ ⟨hmem, _⟩ rfl
    exact hno ss hmem

/-- C8 (witness): `room-1` is a local session missing from the registry and
loses its entry; `room-7` is not a local session and its lookup is unchanged. -/
theorem ScheduleCheckSession_unlisted_local_evicted_witness :
    mapGet "room-1" (ScheduleCheckSession (exEnv (["room-2"], none) exKnown) exWorldTwoRooms
        exTwoSessions).world.PullPeers = none
    ∧ mapGet "room-7" (ScheduleCheckSession (exEnv (["room-2"], none) exKnown) exWorldTwoRooms
        exTwoSessions).world.PullPeers = mapGet "room-7" exWorldTwoRooms.PullPeers :=
  ⟨(ScheduleCheckSession_unlisted_local_evicted (exEnv (["room-2"], none) exKnown)
      exWorldTwoRooms exTwoSessions "room-1").1 ⟨{ ID := "room-1" }, by decide⟩ (by decide),
   (ScheduleCheckSession_unlisted_local_evicted (exEnv (["room-2"], none) exKnown)
      exWorldTwoRooms exTwoSessions "room-7").2
      (by intro ss h; simp [exTwoSessions] at h)⟩

/-- C9 (evaluation at the failing input): redis is unreachable, so
`GetCacheRedis` returns no list and an error; the node holds session
`room-1` with its pull peer.  The tick logs the error and goes on with the
empty list: the entry of `room-1` is deleted and `RemoveAllPeer` is called on
the session.  `Handle` on a join stops at the same error. -/
theorem ScheduleCheckSession_read_error_evicts :
    cacheredis.GetCacheRedis exEnvRedisDown "sessionid"
        = ([], some "dial tcp localhost:6379: connection refused")
    ∧ mapGet "room-1" exWorldRoom1.PullPeers = some (exPull 4)
    ∧ (ScheduleCheckSession exEnvRedisDown exWorldRoom1 exSessions).world.PullPeers = []
    ∧ (ScheduleCheckSession exEnvRedisDown exWorldRoom1 exSessions).events
        = [.log "Schedule check session...", .log "Err get redis",
           .log "Schedule remove session...", .RemoveAllPeer { ID := "room-1" }]
    ∧ (Handle exEnvRedisDown exWorldRoom1 exPeer (exJoin "room-1")).events
        = [.log "Err get cache ssid"] := by
  decide

/-! ## Claims on the replies of `JSONSignal.Handle` -/

theorem Handle_eq_joinMatched (env : Env) (w : World) (p : JSONSignal)
    (req : jsonrpc2.Request) (raw : RawMessage)
    (hm : req.Method = "join") (hp : req.Params = some raw)
    (hparse : raw.asJoin.2 = none)
    (hreg : (cacheredis.GetCacheRedis env "sessionid").2 = none)
    (hs : raw.asJoin.1.SID ∈ (cacheredis.GetCacheRedis env "sessionid").1)
    (hne : raw.asJoin.1.SID ≠ "") :
    Handle env w p req = joinMatched env w p req raw.asJoin.1 := by
  simp only [Handle, hm, hp, hparse, hreg, if_true]
  simp [hne, joinLoop_mem env w p req raw.asJoin.1 _ hs]

theorem joinMatched_events (env : Env) (w : World) (p : JSONSignal)
    (req : jsonrpc2.Request) (join : Join) :
    ∃ pre, (joinMatched env w p req join).events
        = pre ++ acceptJoin env p req join (env.CheckSession join.SID).accept
      ∧ ∀ e ∈ pre, e.isReply = false ∧ e.isClose = false := by
  refine ⟨[Event.CheckSession join.SID]
      ++ (if (env.CheckSession join.SID).newConn = true
            then federate env w (env.CheckSession join.SID).s join.SID
            else (w, [])).2, ?_, ?_⟩
  · simp [joinMatched, acceptJoin]
  · intro e he
    rcases List.mem_append.mp he with h | h
    · simp at h; subst h; simp [Event.isReply, Event.isClose]
    · by_cases hn : (env.CheckSession join.SID).newConn = true
      · simp only [hn, if_true] at h
        exact federate_events env w _ _ e h
      · simp [hn] at h

theorem filter_isReply_append_quiet (pre tail : List Event)
    (h : ∀ e ∈ pre, e.isReply = false ∧ e.isClose = false) :
    (pre ++ tail).filter Event.isReply = tail.filter Event.isReply := by
  rw [List.filter_append]
  have h0 : pre.filter Event.isReply = [] := by
    rw [List.filter_eq_nil_iff]
    intro e he
    simp [(h e he).1]
  rw [h0, List.nil_append]

/-- C11 (evaluation at the failing input): a `join` and an `offer` that
carry no params.  `Handle` dereferences the nil `req.Params` before parsing
(`server.go` lines 58 and 134) and stops there, in every environment and
state and for every correlation id: nothing is sent, neither an error reply
nor a reply.  A second failing input comes from the nil connection of a
failed dial: a join whose `Join` fails after `readMessage` has been started on
the nil `Conn`; the error reply is in the trace of `Handle`, and the process
ends in the nil dereference of that goroutine (`fatal`). -/
theorem Handle_join_offer_without_params_unreplied (env : Env) (w : World) (p : JSONSignal)
    (id : jsonrpc2.ID) (notif : Bool) :
    Handle env w p { Method := "join", Params := none, ID := id, Notif := notif }
        = { world := w, self := p, events := [], panicked := true }
    ∧ Handle env w p { Method := "offer", Params := none, ID := id, Notif := notif }
        = { world := w, self := p, events := [], panicked := true }
    ∧ (Handle exEnvDialJoinFail exWorld exPeer (exJoin "room-1")).fatal = true
    ∧ (Handle exEnvDialJoinFail exWorld exPeer (exJoin "room-1")).events.filter Event.isReply
        = [.ReplyWithError { Num := 3, Str := "", IsString := false } 500
            "peer already exists"] := by
  refine ⟨by simp [Handle], by simp [Handle], by decide, by decide⟩

/-- The error replies `Handle` sends by design.  A `join` or `offer` that
carries params and whose handling fails, because the params do not parse, or
because `Join` fails once the join has passed the gates of `Handle`, or
because `Answer` fails, gets exactly one reply on the connection: the error
reply with the id of the request, code 500 and the text of the error; no
success reply is sent, no peer is closed, and, when the relay connection is
in place or can be dialled, neither `Handle` nor a goroutine it started stops
in a nil dereference. -/
theorem Handle_join_offer_failure_error_reply (env : Env) (w : World) (p : JSONSignal)
    (req : jsonrpc2.Request) (raw : RawMessage) (err : Error)
    (hp : req.Params = some raw)
    (hrelay : req.Method = "join" → (env.CheckSession raw.asJoin.1.SID).newConn = true →
      w.Conn ≠ none ∨ ∃ c, env.Dial ("ws://" ++ w.AddrConn ++ "/pull") = .ok c)
    (hfail :
      (req.Method = "join" ∧ raw.asJoin.2 = some err)
      ∨ (req.Method = "join" ∧ raw.asJoin.2 = none
          ∧ (cacheredis.GetCacheRedis env "sessionid").2 = none
          ∧ raw.asJoin.1.SID ∈ (cacheredis.GetCacheRedis env "sessionid").1
          ∧ raw.asJoin.1.SID ≠ ""
          ∧ (env.CheckSession raw.asJoin.1.SID).accept = true
          ∧ env.Join p.PeerLocal raw.asJoin.1.SID raw.asJoin.1.UID raw.asJoin.1.Config
              = some err)
      ∨ (req.Method = "join" ∧ raw.asJoin.2 = none
          ∧ (cacheredis.GetCacheRedis env "sessionid").2 = none
          ∧ raw.asJoin.1.SID ∈ (cacheredis.GetCacheRedis env "sessionid").1
          ∧ raw.asJoin.1.SID ≠ ""
          ∧ (env.CheckSession raw.asJoin.1.SID).accept = true
          ∧ env.Join p.PeerLocal raw.asJoin.1.SID raw.asJoin.1.UID raw.asJoin.1.Config = none
          ∧ env.Answer p.PeerLocal raw.asJoin.1.Offer = .error err)
      ∨ (req.Method = "offer" ∧ raw.asNegotiation.2 = some err)
      ∨ (req.Method = "offer" ∧ raw.asNegotiation.2 = none
          ∧ env.Answer p.PeerLocal raw.asNegotiation.1.Desc = .error err)) :
    (Handle env w p req).events.filter Event.isReply = [.ReplyWithError req.ID 500 err]
    ∧ (∀ e ∈ (Handle env w p req).events, e.isClose = false)
    ∧ (Handle env w p req).panicked = false
    ∧ (Handle env w p req).fatal = false := by
  rcases hfail with ⟨hm, hparse⟩ | ⟨hm, hparse, hreg, hs, hne, hacc, hjoin⟩
    | ⟨hm, hparse, hreg, hs, hne, hacc, hjoin, hans⟩ | ⟨hm, hparse⟩ | ⟨hm, hparse, hans⟩
  · simp [Handle, hm, hp, hparse, replyError, Event.isReply, Event.isClose, List.filter]
  · rw [Handle_eq_joinMatched env w p req raw hm hp hparse hreg hs hne]
    obtain ⟨pre, hev, hpre⟩ := joinMatched_events env w p req raw.asJoin.1
    refine ⟨?_, ?_, rfl, joinMatched_not_fatal env w p req _ (hrelay hm)⟩
    · rw [hev, filter_isReply_append_quiet pre _ hpre]
      simp [acceptJoin, hacc, hjoin, replyError, Event.isReply, List.filter]
    · intro e he
      rw [hev] at he
      rcases List.mem_append.mp he with h | h
      · exact (hpre e h).2
      · simp [acceptJoin, hacc, hjoin, replyError] at h
        rcases h with h | h <;> subst h <;> rfl
  · rw [Handle_eq_joinMatched env w p req raw hm hp hparse hreg hs hne]
    obtain ⟨pre, hev, hpre⟩ := joinMatched_events env w p req raw.asJoin.1
    refine ⟨?_, ?_, rfl, joinMatched_not_fatal env w p req _ (hrelay hm)⟩
    · rw [hev, filter_isReply_append_quiet pre _ hpre]
      simp [acceptJoin, hacc, hjoin, hans, replyError, Event.isReply, List.filter]
    · intro e he
      rw [hev] at he
      rcases List.mem_append.mp he with h | h
      · exact (hpre e h).2
      · simp [acceptJoin, hacc, hjoin, hans, replyError] at h
        rcases h with h | h | h <;> subst h <;> rfl
  · simp [Handle, hm, hp, hparse, replyError, Event.isReply, Event.isClose, List.filter]
  · simp [Handle, hm, hp, hparse, hans, replyError, Event.isReply, Event.isClose, List.filter]

/-- Instances of the error replies sent by design, one request for each way
of failing: a `join` with malformed params, a `join` whose `Join` fails, a
`join` whose `Answer` fails, an `offer` with malformed params, an `offer`
whose `Answer` fails. -/
theorem Handle_join_offer_failure_error_reply_witness :
    (Handle (exEnv (["room-1"], none) exKnown) exWorld exPeer
        (exRequest "join" exMalformed)).events.filter Event.isReply
      = [.ReplyWithError { Num := 3, Str := "", IsString := false } 500
          "unexpected end of JSON input"]
    ∧ (Handle exEnvJoinFails exWorld exPeer (exJoin "room-1")).events.filter Event.isReply
      = [.ReplyWithError { Num := 3, Str := "", IsString := false } 500 "peer already exists"]
    ∧ (Handle exEnvAnswerFails exWorld exPeer (exJoin "room-1")).events.filter Event.isReply
      = [.ReplyWithError { Num := 3, Str := "", IsString := false } 500 "no rtc transport"]
    ∧ (Handle (exEnv (["room-1"], none) exKnown) exWorld exPeer
        (exRequest "offer" exMalformed)).events.filter Event.isReply
      = [.ReplyWithError { Num := 3, Str := "", IsString := false } 500
          "unexpected end of JSON input"]
    ∧ (Handle exEnvAnswerFails exWorld exPeer
        (exRequest "offer" (marshalNegotiation { Desc := exOffer }))).events.filter Event.isReply
      = [.ReplyWithError { Num := 3, Str := "", IsString := false } 500 "no rtc transport"] :=
  ⟨(Handle_join_offer_failure_error_reply (exEnv (["room-1"], none) exKnown) exWorld exPeer
      (exRequest "join" exMalformed) exMalformed "unexpected end of JSON input" rfl
      (fun _ _ => Or.inr ⟨{ id := 1 }, rfl⟩) (Or.inl ⟨rfl, rfl⟩)).1,
   (Handle_join_offer_failure_error_reply exEnvJoinFails exWorld exPeer (exJoin "room-1")
      (marshalJoin { SID := "room-1", UID := "u", Offer := exOffer, Config := zeroConfig })
      "peer already exists" rfl (fun _ _ => Or.inr ⟨{ id := 1 }, rfl⟩)
      (Or.inr (Or.inl ⟨rfl, rfl, rfl, by decide, by decide, rfl, rfl⟩))).1,
   (Handle_join_offer_failure_error_reply exEnvAnswerFails exWorld exPeer (exJoin "room-1")
      (marshalJoin { SID := "room-1", UID := "u", Offer := exOffer, Config := zeroConfig })
      "no rtc transport" rfl (fun _ _ => Or.inr ⟨{ id := 1 }, rfl⟩)
      (Or.inr (Or.inr (Or.inl ⟨rfl, rfl, rfl, by decide, by decide, rfl, rfl, rfl⟩)))).1,
   (Handle_join_offer_failure_error_reply (exEnv (["room-1"], none) exKnown) exWorld exPeer
      (exRequest "offer" exMalformed) exMalformed "unexpected end of JSON input" rfl
      (fun _ _ => Or.inr ⟨{ id := 1 }, rfl⟩) (Or.inr (Or.inr (Or.inr (Or.inl ⟨rfl, rfl⟩))))).1,
   (Handle_join_offer_failure_error_reply exEnvAnswerFails exWorld exPeer
      (exRequest "offer" (marshalNegotiation { Desc := exOffer }))
      (marshalNegotiation { Desc := exOffer }) "no rtc transport" rfl
      (fun _ _ => Or.inr ⟨{ id := 1 }, rfl⟩)
      (Or.inr (Or.inr (Or.inr (Or.inr ⟨rfl, rfl, rfl⟩))))).1⟩

/-- C12 (counterexample): an `answer` with malformed params, an `answer`
whose `SetRemoteDescription` fails, a `trickle` with malformed params and a
`trickle` whose `Trickle` fails are each answered with an error reply
carrying the id of the request; only the parse failures are logged. -/
theorem Handle_answer_trickle_failure_replied :
    (Handle (exEnv (["room-1"], none) exKnown) exWorld exPeer
        (exRequest "answer" exMalformed)).events
      = [.log "connect: error parsing answer",
         .ReplyWithError { Num := 3, Str := "", IsString := false } 500
           "unexpected end of JSON input"]
    ∧ (Handle exEnvEngineFails exWorld exPeer
        (exRequest "answer" (marshalNegotiation { Desc := exOffer }))).events
      = [.SetRemoteDescription exPeer.PeerLocal exOffer,
         .ReplyWithError { Num := 3, Str := "", IsString := false } 500 "no rtc transport"]
    ∧ (Handle (exEnv (["room-1"], none) exKnown) exWorld exPeer
        (exRequest "trickle" exMalformed)).events
      = [.log "connect: error parsing candidate",
         .ReplyWithError { Num := 3, Str := "", IsString := false } 500
           "unexpected end of JSON input"]
    ∧ (Handle exEnvEngineFails exWorld exPeer
        (exRequest "trickle" (marshalTrickle { Target := 0, Candidate := exCandidate }))).events
      = [.Trickle exPeer.PeerLocal exCandidate 0,
         .ReplyWithError { Num := 3, Str := "", IsString := false } 500 "no rtc transport"] := by
  decide

/-- C12 (amended): an `answer` or `trickle` that carries params and whose
handling fails, because the params do not parse or because
`SetRemoteDescription` or `Trickle` fails, is replied to: `Handle` sends
exactly one error reply, with the id of the request, code 500 and the text of
the error, and no success reply. -/
theorem Handle_answer_trickle_failure_error_reply (env : Env) (w : World) (p : JSONSignal)
    (req : jsonrpc2.Request) (raw : RawMessage) (err : Error)
    (hp : req.Params = some raw)
    (hfail :
      (req.Method = "answer" ∧ raw.asNegotiation.2 = some err)
      ∨ (req.Method = "answer" ∧ raw.asNegotiation.2 = none
          ∧ env.SetRemoteDescription p.PeerLocal raw.asNegotiation.1.Desc = some err)
      ∨ (req.Method = "trickle" ∧ raw.asTrickle.2 = some err)
      ∨ (req.Method = "trickle" ∧ raw.asTrickle.2 = none
          ∧ env.Trickle p.PeerLocal raw.asTrickle.1.Candidate raw.asTrickle.1.Target
              = some err)) :
    (Handle env w p req).events.filter Event.isReply = [.ReplyWithError req.ID 500 err]
    ∧ (Handle env w p req).panicked = false := by
  rcases hfail with ⟨hm, hparse⟩ | ⟨hm, hparse, hop⟩ | ⟨hm, hparse⟩ | ⟨hm, hparse, hop⟩
  · simp [Handle, hm, hp, hparse, replyError, Event.isReply, List.filter]
  · simp [Handle, hm, hp, hparse, hop, replyError, Event.isReply, List.filter]
  · simp [Handle, hm, hp, hparse, replyError, Event.isReply, List.filter]
  · simp [Handle, hm, hp, hparse, hop, replyError, Event.isReply, List.filter]

/-- C12 (witness): the four failing requests of the counterexample. -/
theorem Handle_answer_trickle_failure_error_reply_witness :
    (Handle (exEnv (["room-1"], none) exKnown) exWorld exPeer
        (exRequest "answer" exMalformed)).events.filter Event.isReply
      = [.ReplyWithError { Num := 3, Str := "", IsString := false } 500
          "unexpected end of JSON input"]
    ∧ (Handle exEnvEngineFails exWorld exPeer
        (exRequest "answer" (marshalNegotiation { Desc := exOffer }))).events.filter
          Event.isReply
      = [.ReplyWithError { Num := 3, Str := "", IsString := false } 500 "no rtc transport"]
    ∧ (Handle (exEnv (["room-1"], none) exKnown) exWorld exPeer
        (exRequest "trickle" exMalformed)).events.filter Event.isReply
      = [.ReplyWithError { Num := 3, Str := "", IsString := false } 500
          "unexpected end of JSON input"]
    ∧ (Handle exEnvEngineFails exWorld exPeer
        (exRequest "trickle" (marshalTrickle { Target := 0, Candidate := exCandidate }))).events.filter
          Event.isReply
      = [.ReplyWithError { Num := 3, Str := "", IsString := false } 500 "no rtc transport"] :=
  ⟨(Handle_answer_trickle_failure_error_reply (exEnv (["room-1"], none) exKnown) exWorld exPeer
      (exRequest "answer" exMalformed) exMalformed "unexpected end of JSON input" rfl
      (Or.inl ⟨rfl, rfl⟩)).1,
   (Handle_answer_trickle_failure_error_reply exEnvEngineFails exWorld exPeer
      (exRequest "answer" (marshalNegotiation { Desc := exOffer }))
      (marshalNegotiation { Desc := exOffer }) "no rtc transport" rfl
      (Or.inr (Or.inl ⟨rfl, rfl, rfl⟩))).1,
   (Handle_answer_trickle_failure_error_reply (exEnv (["room-1"], none) exKnown) exWorld exPeer
      (exRequest "trickle" exMalformed) exMalformed "unexpected end of JSON input" rfl
      (Or.inr (Or.inr (Or.inl ⟨rfl, rfl⟩)))).1,
   (Handle_answer_trickle_failure_error_reply exEnvEngineFails exWorld exPeer
      (exRequest "trickle" (marshalTrickle { Target := 0, Candidate := exCandidate }))
      (marshalTrickle { Target := 0, Candidate := exCandidate }) "no rtc transport" rfl
      (Or.inr (Or.inr (Or.inr ⟨rfl, rfl, rfl⟩)))).1⟩

/-! ## Claims on the federation link -/

theorem writes_append (a b : List Event) : writes (a ++ b) = writes a ++ writes b := by
  induction a with
  | nil => rfl
  | cons e rest ih => cases e <;> simp [writes, ih]

/-- C13 (evaluation, for every pull peer and candidate): the `trickle`
written by the candidate callback of `createPeer` is a `jsonrpc2.Request`
and carries no session id, whatever the session `id` of the peer; the `join`
written by `sendOfferJoin` carries `ssid`, and whatever `readMessage` writes
for a message carries the session id of that message. -/
theorem createPeer_trickle_without_sid (env : Env) (peerLocal : sfu.PeerLocal)
    (conn : Connect) (id : String) (candidate : webrtc.ICECandidateInit) (T : Int)
    (w : World) (response : Request) :
    (writes (runOnIceCandidate env (server.createPeer peerLocal (some conn) id).1
        (some candidate) T).1).map (fun x => x.2.sid) = [none]
    ∧ (writes (sendOfferJoin env peerLocal id (some conn)).1.1).all
        (fun x => x.2.sid == some id) = true
    ∧ (writes (readMessageStep env conn w response).events).all
        (fun x => x.2.sid == some response.Sid) = true := by
  refine ⟨?_, ?_, ?_⟩
  · simp only [runOnIceCandidate, server.createPeer, NewJSONSignal, relayTrickle, sendMess]
    cases env.WriteMessage conn.Conn _ <;> simp [writes, server.WireMessage.sid]
  · simp only [sendOfferJoin, sendMess]
    cases env.SetLocalDescription peerLocal (env.CreateOffer peerLocal).1 with
    | some e => simp [writes]
    | none =>
      simp only []
      cases env.WriteMessage conn.Conn _ <;> simp [writes, server.WireMessage.sid]
  · unfold readMessageStep
    split_ifs
    · cases mapGet response.Sid w.PullPeers with
      | none => simp [writes]
      | some peer =>
        cases hP : response.Params with
        | none => simp [writes]
        | some raw =>
          simp only []
          cases raw.asNegotiation.2 <;>
            cases env.SetRemoteDescription peer.PeerLocal raw.asNegotiation.1.Desc <;>
            simp [writes]
    · cases mapGet response.Sid w.PullPeers with
      | none => simp [writes]
      | some peer =>
        cases hP : response.Params with
        | none => simp [writes]
        | some raw =>
          simp only []
          cases hA : env.Answer peer.PeerLocal raw.asNegotiation.1.Desc with
          | error e => simp [writes]
          | ok answer =>
            simp only [sendMess]
            cases env.WriteMessage conn.Conn _ <;> simp [writes, server.WireMessage.sid]
    · cases mapGet response.Sid w.PullPeers with
      | none => simp [writes]
      | some peer =>
        cases hP : response.Params with
        | none => simp [writes]
        | some raw =>
          simp only []
          cases raw.asTrickle.2 <;>
            cases env.Trickle peer.PeerLocal raw.asTrickle.1.Candidate raw.asTrickle.1.Target <;>
            simp [writes]
    · simp [writes]

/-- C14 (evaluation at the failing input): no relay connection exists, the
registry lists `room-1`, `CheckSession` reports the session as new and the
dial fails.  `Handle` stores the nil connection in `Conn`, starts
`readMessage` and `sendOfferJoin` on it and hands it to `createPeer`;
`readMessage` stops in a nil dereference at its first read, `sendOfferJoin`
stops in one when it reaches `sendMess`, and so does the candidate callback of
the pull peer stored under `room-1`. -/
theorem Handle_dial_failure_nil_dereferenced :
    (Handle exEnvDialFails exWorld exPeer (exJoin "room-1")).world.Conn = none
    ∧ (Handle exEnvDialFails exWorld exPeer (exJoin "room-1")).events
      = [.CheckSession "room-1", .log "connecting to", .Dial "ws://localhost:7070/pull",
         .log "Err create conn ws", .go_readMessage none,
         .NewPeer { id := 0 } { id := 10 }, .Join { id := 10 } "room-1" "pull" zeroConfig,
         .go_sendOfferJoin { id := 10 } "room-1" none,
         .Join exPeer.PeerLocal "room-1" "u" zeroConfig, .Answer exPeer.PeerLocal exOffer,
         .Reply { Num := 3, Str := "", IsString := false } { Kind := "answer", SDP := "v=0" }]
    ∧ (readMessage exEnvDialFails none
        (Handle exEnvDialFails exWorld exPeer (exJoin "room-1")).world []).panicked = true
    ∧ (sendOfferJoin exEnvDialFails { id := 10 } "room-1" none).1
      = ([.CreateOffer { id := 10 },
          .SetLocalDescription { id := 10 } { Kind := "offer", SDP := "v=0" }], true)
    ∧ (mapGet "room-1"
        (Handle exEnvDialFails exWorld exPeer (exJoin "room-1")).world.PullPeers).map
          (fun peer => runOnIceCandidate exEnvDialFails peer (some exCandidate) 1)
      = some ([], true) := by
  decide

/-- C15 (counterexample): a join with an empty sid.  With a failing registry
read `Handle` logs the error and leaves the peer open; with a read that
succeeds and returns the empty list it closes the peer. -/
theorem Handle_join_empty_sid_registry_error_differs :
    (cacheredis.GetCacheRedis exEnvRedisDown "sessionid").2
        = some "dial tcp localhost:6379: connection refused"
    ∧ cacheredis.GetCacheRedis (exEnv ([], none) exKnown) "sessionid" = ([], none)
    ∧ (Handle exEnvRedisDown exWorld exPeer (exJoin "")).events = [.log "Err get cache ssid"]
    ∧ (Handle (exEnv ([], none) exKnown) exWorld exPeer (exJoin "")).events
        = [.Close exPeer.PeerLocal] := by
  decide

/-- C15 (amended): for a join whose sid is not empty (or whose params are
missing or do not parse), `Handle` run with a failing registry read and
`Handle` run with a read that succeeds and returns the empty list make the
same calls apart from log lines (replies, error replies, `Close`, peer
operations, federation), and leave the same package-level variables, the
same callbacks on the receiver and the same panic flag. -/
theorem Handle_join_registry_error_as_empty (envErr envEmpty : Env) (w : World)
    (p : JSONSignal) (req : jsonrpc2.Request)
    (hm : req.Method = "join")
    (herr : (cacheredis.GetCacheRedis envErr "sessionid").2 ≠ none)
    (hempty : cacheredis.GetCacheRedis envEmpty "sessionid" = ([], none))
    (hsid : ∀ raw, req.Params = some raw → raw.asJoin.2 = none → raw.asJoin.1.SID ≠ "") :
    (Handle envErr w p req).events.filter (fun e => !e.isLog)
        = (Handle envEmpty w p req).events.filter (fun e => !e.isLog)
    ∧ (Handle envErr w p req).world = (Handle envEmpty w p req).world
    ∧ (Handle envErr w p req).self = (Handle envEmpty w p req).self
    ∧ (Handle envErr w p req).panicked = (Handle envEmpty w p req).panicked := by
  cases hP : req.Params with
  | none => simp [Handle, hm, hP]
  | some raw =>
    cases hparse : raw.asJoin.2 with
    | some e => simp [Handle, hm, hP, hparse]
    | none =>
      have hne := hsid raw hP hparse
      obtain ⟨e, he⟩ := Option.ne_none_iff_exists'.mp herr
      simp [Handle, hm, hP, hparse, he, hempty, hne, joinLoop, Event.isLog]

/-- C15 (witness): the join for `room-1` with redis unreachable and with an
empty registry. -/
theorem Handle_join_registry_error_as_empty_witness :
    (Handle exEnvRedisDown exWorld exPeer (exJoin "room-1")).events.filter (fun e => !e.isLog)
        = (Handle (exEnv ([], none) exKnown) exWorld exPeer (exJoin "room-1")).events.filter
            (fun e => !e.isLog)
    ∧ (Handle exEnvRedisDown exWorld exPeer (exJoin "room-1")).world
        = (Handle (exEnv ([], none) exKnown) exWorld exPeer (exJoin "room-1")).world
    ∧ (Handle exEnvRedisDown exWorld exPeer (exJoin "room-1")).self
        = (Handle (exEnv ([], none) exKnown) exWorld exPeer (exJoin "room-1")).self
    ∧ (Handle exEnvRedisDown exWorld exPeer (exJoin "room-1")).panicked
        = (Handle (exEnv ([], none) exKnown) exWorld exPeer (exJoin "room-1")).panicked :=
  Handle_join_registry_error_as_empty exEnvRedisDown (exEnv ([], none) exKnown) exWorld exPeer
    (exJoin "room-1") rfl (by decide) rfl
    (by
      intro raw hraw _
      have h : raw = marshalJoin
          { SID := "room-1", UID := "u", Offer := exOffer, Config := zeroConfig } := by
        simpa [exJoin] using hraw.symm
      subst h
      decide)

/-! ## The join is processed once -/

theorem filter_eq_nil_of_forall (f : Event → Bool) (l : List Event)
    (h : ∀ e ∈ l, f e = false) : l.filter f = [] := by
  rw [List.filter_eq_nil_iff]
  intro e he
  simp [h e he]

theorem ensureConn_nextPeer (env : Env) (w : World) :
    (ensureConn env w).1.nextPeer = w.nextPeer := by
  unfold ensureConn
  cases w.Conn <;> rfl

theorem ensureConn_quiet (env : Env) (w : World) (q : sfu.PeerLocal) :
    ∀ e ∈ (ensureConn env w).2, e.isNewPeer = false ∧ e.isJoinOn q = false := by
  intro e he
  unfold ensureConn at he
  cases hc : w.Conn with
  | some c => simp [hc] at he
  | none =>
    simp only [hc, createConnWs] at he
    cases hd : env.Dial ("ws://" ++ w.AddrConn ++ "/pull") with
    | error err =>
      simp [hd] at he
      rcases he with h | h | h | h <;> subst h <;> simp [Event.isNewPeer, Event.isJoinOn]
    | ok c =>
      simp [hd] at he
      rcases he with h | h | h | h <;> subst h <;> simp [Event.isNewPeer, Event.isJoinOn]

theorem federate_counts (env : Env) (w : World) (s : sfu.Provider) (sid : String)
    (q : sfu.PeerLocal) :
    (federate env w s sid).2.filter Event.isReply = []
    ∧ ((federate env w s sid).2.filter Event.isNewPeer).length = 1
    ∧ (federate env w s sid).1.nextPeer = w.nextPeer + 1
    ∧ (q.id ≠ w.nextPeer → (federate env w s sid).2.filter (Event.isJoinOn q) = []) := by
  refine ⟨?_, ?_, ?_, ?_⟩
  · exact filter_eq_nil_of_forall _ _ (fun e he => (federate_events env w s sid e he).1)
  · simp only [federate, createPeer, NewJSONSignal, List.filter_append]
    rw [filter_eq_nil_of_forall _ _ (fun e he => (ensureConn_quiet env w q e he).1)]
    simp [List.filter, Event.isNewPeer]
  · simp [federate, ensureConn_nextPeer]
  · intro hq
    simp only [federate, createPeer, NewJSONSignal, List.filter_append]
    rw [filter_eq_nil_of_forall _ _ (fun e he => (ensureConn_quiet env w q e he).2)]
    have hne : ¬ ({ id := (ensureConn env w).1.nextPeer } : sfu.PeerLocal) = q := by
      intro h
      apply hq
      rw [← h, ensureConn_nextPeer]
    simp [List.filter, Event.isJoinOn, hne]

theorem acceptJoin_counts (env : Env) (p : JSONSignal) (req : jsonrpc2.Request) (join : Join)
    (accept : Bool) (q : sfu.PeerLocal) :
    ((acceptJoin env p req join accept).filter Event.isReply).length ≤ 1
    ∧ (acceptJoin env p req join accept).filter Event.isNewPeer = []
    ∧ ((acceptJoin env p req join accept).filter (Event.isJoinOn q)).length ≤ 1 := by
  unfold acceptJoin
  cases accept with
  | false => simp [List.filter, Event.isReply, Event.isNewPeer, Event.isJoinOn]
  | true =>
    simp only [if_true]
    cases env.Join p.PeerLocal join.SID join.UID join.Config with
    | some err =>
      by_cases hq : p.PeerLocal = q <;>
        simp [List.filter, Event.isReply, Event.isNewPeer, Event.isJoinOn, replyError, hq]
    | none =>
      cases env.Answer p.PeerLocal join.Offer with
      | error err =>
        by_cases hq : p.PeerLocal = q <;>
          simp [List.filter, Event.isReply, Event.isNewPeer, Event.isJoinOn, replyError, hq]
      | ok answer =>
        by_cases hq : p.PeerLocal = q <;>
          simp [List.filter, Event.isReply, Event.isNewPeer, Event.isJoinOn, hq]

theorem joinMatched_counts (env : Env) (w : World) (p : JSONSignal)
    (req : jsonrpc2.Request) (join : Join) :
    ((joinMatched env w p req join).events.filter Event.isReply).length ≤ 1
    ∧ ((joinMatched env w p req join).events.filter Event.isNewPeer).length ≤ 1
    ∧ (joinMatched env w p req join).world.nextPeer ≤ w.nextPeer + 1
    ∧ (p.PeerLocal.id ≠ w.nextPeer →
        ((joinMatched env w p req join).events.filter
          (Event.isJoinOn p.PeerLocal)).length ≤ 1) := by
  have hacc := acceptJoin_counts env
    { p with OnOffer := some .notifyOffer, OnIceCandidate := some .notifyTrickle } req join
    (env.CheckSession join.SID).accept p.PeerLocal
  by_cases hn : (env.CheckSession join.SID).newConn = true
  · have hfed := federate_counts env w (env.CheckSession join.SID).s join.SID p.PeerLocal
    refine ⟨?_, ?_, ?_, ?_⟩
    · simp only [joinMatched, hn, if_true, List.filter_append, List.length_append, hfed.1]
      simpa [List.filter, Event.isReply] using hacc.1
    · simp only [joinMatched, hn, if_true, List.filter_append, List.length_append, hfed.2.1,
        hacc.2.1]
      simp [List.filter, Event.isNewPeer]
    · simp only [joinMatched, hn, if_true, hfed.2.2.1]
      exact le_refl _
    · intro hq
      simp only [joinMatched, hn, if_true, List.filter_append, List.length_append,
        hfed.2.2.2 hq]
      simpa [List.filter, Event.isJoinOn] using hacc.2.2
  · refine ⟨?_, ?_, ?_, ?_⟩
    · simp only [joinMatched, hn, List.filter_append, List.length_append]
      simpa [List.filter, Event.isReply] using hacc.1
    · simp only [joinMatched, hn, List.filter_append, List.length_append, hacc.2.1]
      simp [List.filter, Event.isNewPeer]
    · simp [joinMatched, hn]
    · intro _
      simp only [joinMatched, hn, List.filter_append, List.length_append]
      simpa [List.filter, Event.isJoinOn] using hacc.2.2

/-- C16: whatever the registry read returns, also a list naming the sid
several times, `Handle` processes a join at most once: it sends at most one
reply or error reply, allocates at most one pull peer (at most one
`sfu.NewPeer`, at most one peer number used), and invokes `Join` on the
receiver at most once (the receiver is not the peer about to be allocated);
the scan gives the same result on a list and on that list without its
repetitions, since it leaves at the first id equal to the sid. -/
theorem Handle_join_processed_once (env : Env) (w : World) (p : JSONSignal)
    (req : jsonrpc2.Request) (hm : req.Method = "join") :
    ((Handle env w p req).events.filter Event.isReply).length ≤ 1
    ∧ ((Handle env w p req).events.filter Event.isNewPeer).length ≤ 1
    ∧ (Handle env w p req).world.nextPeer ≤ w.nextPeer + 1
    ∧ (p.PeerLocal.id ≠ w.nextPeer →
        ((Handle env w p req).events.filter (Event.isJoinOn p.PeerLocal)).length ≤ 1)
    ∧ (∀ (join : Join) (ssids : List String),
        joinLoop env w p req join ssids = joinLoop env w p req join ssids.dedup) := by
  have hscan : ∀ (join : Join) (ssids : List String),
      joinLoop env w p req join ssids = joinLoop env w p req join ssids.dedup := by
    intro join ssids
    by_cases hmem : join.SID ∈ ssids
    · rw [joinLoop_mem env w p req join ssids hmem,
        joinLoop_mem env w p req join ssids.dedup (List.mem_dedup.mpr hmem)]
    · rw [joinLoop_not_mem env w p req join ssids hmem,
        joinLoop_not_mem env w p req join ssids.dedup (fun h => hmem (List.mem_dedup.mp h))]
  have key : ((Handle env w p req).events.filter Event.isReply).length ≤ 1
      ∧ ((Handle env w p req).events.filter Event.isNewPeer).length ≤ 1
      ∧ (Handle env w p req).world.nextPeer ≤ w.nextPeer + 1
      ∧ (p.PeerLocal.id ≠ w.nextPeer →
          ((Handle env w p req).events.filter (Event.isJoinOn p.PeerLocal)).length ≤ 1) := by
    cases hP : req.Params with
    | none => simp [Handle, hm, hP]
    | some raw =>
      cases hparse : raw.asJoin.2 with
      | some e =>
        simp [Handle, hm, hP, hparse, replyError, List.filter, Event.isReply, Event.isNewPeer,
          Event.isJoinOn]
      | none =>
        cases hreg : (cacheredis.GetCacheRedis env "sessionid").2 with
        | some e =>
          simp [Handle, hm, hP, hparse, hreg, List.filter, Event.isReply, Event.isNewPeer,
            Event.isJoinOn]
        | none =>
          by_cases hsid : raw.asJoin.1.SID = ""
          · simp [Handle, hm, hP, hparse, hreg, hsid, List.filter, Event.isReply,
              Event.isNewPeer, Event.isJoinOn]
          · by_cases hmem : raw.asJoin.1.SID ∈ (cacheredis.GetCacheRedis env "sessionid").1
            · rw [Handle_eq_joinMatched env w p req raw hm hP hparse hreg hmem hsid]
              exact joinMatched_counts env w p req raw.asJoin.1
            · simp [Handle, hm, hP, hparse, hreg, hsid,
                joinLoop_not_mem env w p req raw.asJoin.1 _ hmem]
  exact ⟨key.1, key.2.1, key.2.2.1, key.2.2.2, hscan⟩

/-- C16 (witness): the registry names `room-1` three times and the session
is new; one reply, one new peer, one `Join` on the receiver. -/
theorem Handle_join_processed_once_witness :
    ((Handle (exEnv (["room-1", "room-1", "room-1"], none) exNew) exWorld exPeer
        (exJoin "room-1")).events.filter Event.isReply).length ≤ 1
    ∧ ((Handle (exEnv (["room-1", "room-1", "room-1"], none) exNew) exWorld exPeer
        (exJoin "room-1")).events.filter Event.isNewPeer).length ≤ 1
    ∧ (Handle (exEnv (["room-1", "room-1", "room-1"], none) exNew) exWorld exPeer
        (exJoin "room-1")).world.nextPeer ≤ exWorld.nextPeer + 1
    ∧ ((Handle (exEnv (["room-1", "room-1", "room-1"], none) exNew) exWorld exPeer
        (exJoin "room-1")).events.filter (Event.isJoinOn exPeer.PeerLocal)).length ≤ 1 :=
  ⟨(Handle_join_processed_once (exEnv (["room-1", "room-1", "room-1"], none) exNew) exWorld
      exPeer (exJoin "room-1") rfl).1,
   (Handle_join_processed_once (exEnv (["room-1", "room-1", "room-1"], none) exNew) exWorld
      exPeer (exJoin "room-1") rfl).2.1,
   (Handle_join_processed_once (exEnv (["room-1", "room-1", "room-1"], none) exNew) exWorld
      exPeer (exJoin "room-1") rfl).2.2.1,
   (Handle_join_processed_once (exEnv (["room-1", "room-1", "room-1"], none) exNew) exWorld
      exPeer (exJoin "room-1") rfl).2.2.2.1 (by decide)⟩

end SfuPull
